import Mathlib

/-!
Verification of the Brazilian fiscal-document ingestion core (ERPNext_Brazil_NF).

Shallow embedding of the repository's Python source into Lean 4.  Machine
floats in the source are modelled by exact rationals (`ℚ`); Python strings by
`String`; fallible code by `Option`/`Except`; the database and the web
framework (external collaborators per the spec) by explicit state records and
environment records passed to the embedded functions.
-/

namespace BrazilNF

/-! ### Shared helpers for the Python string model -/

/-- Numeric value of an ASCII digit character (models Python `int(ch)` on a digit). -/
def digitVal (c : Char) : ℕ := c.toNat - 48

/-- Does the first list start with the second? -/
def startsWithL : List Char → List Char → Bool
  | _, [] => true
  | [], _ => false
  | c :: cs, d :: ds => c = d && startsWithL cs ds

/-- Is `sub` a contiguous infix of the list? -/
def infixOfL (sub : List Char) : List Char → Bool
  | [] => startsWithL [] sub
  | c :: cs => startsWithL (c :: cs) sub || infixOfL sub cs

/-- Python `in` on strings: does `s` contain `sub` as a substring? -/
def strContainsSub (s sub : String) : Bool := infixOfL sub.toList s.toList

/-- Python `str.lower()` (ASCII case fold, which covers the source's data). -/
def strLower (s : String) : String := (s.toList.map Char.toLower).asString

/-- Python whitespace for `str.strip()`. -/
def isPySpace (c : Char) : Bool :=
  c = ' ' || c = '\t' || c = '\n' || c = '\r' || c = '\x0b' || c = '\x0c'

/-- Python `str.strip()` with no argument. -/
def pyStrip (s : String) : String :=
  ((s.toList.dropWhile isPySpace).reverse.dropWhile isPySpace).reverse.asString

/-- Python truthiness of an optional string: `None` and `""` are falsy. -/
def truthyS : Option String → Bool
  | some s => s ≠ ""
  | none => false

/-! ## `utils/chave_acesso.py` — access-key codec -/

/-- `clean_chave`: strip every non-digit character, preserving order. -/
def clean_chave (chave : String) : String :=
  (chave.toList.filter Char.isDigit).asString

/-- The cyclic weight table of `validate_chave_acesso`. -/
def chaveWeights : List ℕ := [2, 3, 4, 5, 6, 7, 8, 9]

/-- The weighted total of `validate_chave_acesso`: the Python loop runs
`i = 42, …, 0` adding `int(chave[i]) * weights[(42 - i) % 8]`; summed here over
`k = 42 - i ∈ range 43` (addition over ℕ is order-independent). -/
def chaveTotal (ds : List ℕ) : ℕ :=
  ∑ k ∈ Finset.range 43, ds.getD (42 - k) 0 * chaveWeights.getD (k % 8) 0

/-- `validate_chave_acesso`: clean, require 44 digits, recompute the modulo-11
check digit and compare with position 43. -/
def validate_chave_acesso (chave : String) : Bool :=
  let c := clean_chave chave
  if c.length ≠ 44 then false
  else if ¬ (c.toList.all Char.isDigit) then false
  else
    let ds := c.toList.map digitVal
    let remainder := chaveTotal ds % 11
    let expected_dv := if remainder < 2 then 0 else 11 - remainder
    ds.getD 43 0 == expected_dv

/-- Check digit as the claim words it: weighted modulo-11 over digits 0–42,
the weights cycling 2..9 starting from the rightmost of those digits and
moving leftward (a digit at distance `j` from the right gets weight `2 + j % 8`),
check digit 0 when the remainder is below 2, otherwise 11 minus the remainder. -/
def spec_check_digit (ds : List ℕ) : ℕ :=
  let total := ∑ i ∈ Finset.range 43, ds.getD i 0 * (2 + (42 - i) % 8)
  if total % 11 < 2 then 0 else 11 - total % 11

/-! ## `utils/cnpj.py` — CNPJ clean / format -/

/-- `clean_cnpj`: strip every non-digit character. -/
def clean_cnpj (cnpj : String) : String :=
  (cnpj.toList.filter Char.isDigit).asString

/-- `format_cnpj`: clean; a non-14-digit result is returned as-is, a 14-digit
result is masked `XX.XXX.XXX/XXXX-XX`. -/
def format_cnpj (cnpj : String) : String :=
  let c := clean_cnpj cnpj
  if c.length ≠ 14 then c
  else
    let l := c.toList
    (l.take 2 ++ ['.'] ++ ((l.drop 2).take 3) ++ ['.'] ++ ((l.drop 5).take 3)
      ++ ['/'] ++ ((l.drop 8).take 4) ++ ['-'] ++ ((l.drop 12).take 2)).asString

/-- The canonical mask of the claim, over a given list of 14 digit characters. -/
def canonical_cnpj_mask (l : List Char) : String :=
  (l.take 2 ++ ['.'] ++ ((l.drop 2).take 3) ++ ['.'] ++ ((l.drop 5).take 3)
    ++ ['/'] ++ ((l.drop 8).take 4) ++ ['-'] ++ ((l.drop 12).take 2)).asString

/-! ## `services/xml_parser.py` — currency and float parsing

Python's builtin `float(str)` is modelled on plain decimal literals
(optional sign, digits, at most one dot): those are the only shapes the
parser's inputs take after its own normalisation.  Exponent/inf/nan literals
are outside the source's data domain and are mapped to `none` (the
`ValueError` branch).  Machine floats are modelled by exact rationals. -/

/-- Digits-to-number accumulator (decimal). -/
def digitsToNat (cs : List Char) : ℕ :=
  cs.foldl (fun a c => a * 10 + digitVal c) 0

/-- Model of Python `float(s)` on decimal literals: `"123"`, `"123.45"`,
`".5"`, `"5."`, with an optional leading sign; everything else raises
`ValueError`, modelled as `none`. -/
def pyFloat (s : String) : Option ℚ :=
  let cs := s.toList
  let sgnBody : ℚ × List Char :=
    match cs with
    | '-' :: t => (-1, t)
    | '+' :: t => (1, t)
    | _ => (1, cs)
  let sgn := sgnBody.1
  let body := sgnBody.2
  match body.splitOn '.' with
  | [ip] =>
      if ip ≠ [] ∧ ip.all Char.isDigit then some (sgn * digitsToNat ip) else none
  | [ip, fp] =>
      if (ip ≠ [] ∨ fp ≠ []) ∧ ip.all Char.isDigit ∧ fp.all Char.isDigit then
        some (sgn * ((digitsToNat ip : ℚ) + (digitsToNat fp : ℚ) / (10 : ℚ) ^ fp.length))
      else none
  | _ => none

/-- `value_str.replace(".", "").replace(",", ".")` — the Brazilian-dialect
normalisation of `_parse_currency`. -/
def brazilianNormalize (s : String) : String :=
  ((s.toList.filter (· ≠ '.')).map (fun c => if c = ',' then '.' else c)).asString

/-- `NFXMLParser._parse_currency`: `None`/`""` yield `0.0`; otherwise strip,
auto-detect the dialect by the presence of a comma, parse, and fall back to
`0.0` on `ValueError`. -/
def parse_currency (value_str : Option String) : ℚ :=
  match value_str with
  | none => 0
  | some v =>
      if v = "" then 0
      else
        let t := pyStrip v
        if t.toList.contains ',' then (pyFloat (brazilianNormalize t)).getD 0
        else (pyFloat t).getD 0

/-- `NFXMLParser._parse_float`: `None`/`""` yield `0.0`; otherwise replace a
comma by a dot and parse, falling back to `0.0` on `ValueError`. -/
def parse_float (value_str : Option String) : ℚ :=
  match value_str with
  | none => 0
  | some v =>
      if v = "" then 0
      else (pyFloat ((v.toList.map (fun c => if c = ',' then '.' else c)).asString)).getD 0

/-! ## `services/xml_parser.py` — XML tree model

`xml.etree.ElementTree` is standard-library code (an external collaborator);
its parsed tree is modelled by `XmlTree` (a mutual inductive so that all
traversals are structural and kernel-reducible), with element tags stored the
way ElementTree stores them: `"\x7buri\x7dlocalname"` for namespaced
elements.  `ET.fromstring` is modelled as an `Option XmlTree` input to
`parse` (`none` = `ParseError`).  The `find`/`findall` XPath subset actually
used by the source (`.`-relative child steps, `//` descendant steps, `n:`
prefix resolution against the single-entry namespace map, literal
`\x7buri\x7dtag` tokens) is embedded below; a path whose prefix cannot be
resolved yields no result, matching the source's `except`-and-continue. -/

mutual
inductive XmlTree where
  | mk (tag : String) (attrs : List (String × String)) (text : Option String)
      (children : XmlForest)
inductive XmlForest where
  | nil
  | cons (t : XmlTree) (ts : XmlForest)
end

def XmlTree.tag : XmlTree → String
  | .mk t _ _ _ => t

def XmlTree.attrs : XmlTree → List (String × String)
  | .mk _ a _ _ => a

def XmlTree.text : XmlTree → Option String
  | .mk _ _ tx _ => tx

def XmlForest.toList : XmlForest → List XmlTree
  | .nil => []
  | .cons t ts => t :: ts.toList

def XmlForest.ofList : List XmlTree → XmlForest
  | [] => .nil
  | t :: ts => .cons t (XmlForest.ofList ts)

def XmlTree.childList : XmlTree → List XmlTree
  | .mk _ _ _ c => c.toList

/-- `element.get(key)` (attribute lookup, `None` when absent). -/
def XmlTree.attr (t : XmlTree) (k : String) : Option String :=
  t.attrs.lookup k

mutual
/-- `element.iter()`: the element itself followed by all descendants, in
document (preorder) order. -/
def XmlTree.iterSelf : XmlTree → List XmlTree
  | .mk tag attrs tx children => .mk tag attrs tx children :: children.iterAll
def XmlForest.iterAll : XmlForest → List XmlTree
  | .nil => []
  | .cons t ts => t.iterSelf ++ ts.iterAll
end

/-- Proper descendants of an element, document order (`elem.iter(tag)` minus
the element itself, as ElementPath's descendant step yields them). -/
def XmlTree.descendants : XmlTree → List XmlTree
  | .mk _ _ _ c => c.iterAll

def lbraceC : Char := Char.ofNat 123

def rbraceC : Char := Char.ofNat 125

/-- One step of the XPath subset. -/
inductive PathStep where
  | self
  | child (tag : String)
  | desc (tag : String)

/-- Resolve one path token to a concrete element tag: a literal
`\x7buri\x7dtag` token stands for itself; a `n:tag` token resolves through the
namespace map `{"n": uri}` (failure when no namespace is in scope, modelling
the raised `SyntaxError`); a bare token matches un-namespaced tags. -/
def resolveToken (nsUri : Option String) (tok : String) : Option String :=
  if tok.toList.head? = some lbraceC then some tok
  else if tok.toList.contains ':' then
    match tok.toList.splitOn ':' with
    | [p, loc] =>
        if p.asString = "n" then
          match nsUri with
          | some uri => some ("\x7b" ++ uri ++ "\x7d" ++ loc.asString)
          | none => none
        else none
    | _ => none
  else some tok

/-- Translate the `/`-separated tokens of a path into steps; `none` models a
path ElementPath would reject (or an unresolvable prefix). -/
def pathSteps (nsUri : Option String) : List String → Option (List PathStep)
  | [] => some []
  | "." :: rest => (pathSteps nsUri rest).map (PathStep.self :: ·)
  | "" :: tok :: rest =>
      if tok = "" ∨ tok = "." then none
      else
        match resolveToken nsUri tok with
        | some tag => (pathSteps nsUri rest).map (PathStep.desc tag :: ·)
        | none => none
  | [""] => none
  | tok :: rest =>
      match resolveToken nsUri tok with
      | some tag => (pathSteps nsUri rest).map (PathStep.child tag :: ·)
      | none => none

def parsePath (nsUri : Option String) (path : String) : Option (List PathStep) :=
  pathSteps nsUri ((path.toList.splitOn '/').map List.asString)

/-- Apply one step to a node set, preserving document order within each node. -/
def applyStep (step : PathStep) (nodes : List XmlTree) : List XmlTree :=
  match step with
  | .self => nodes
  | .child tag => nodes.flatMap (fun n => n.childList.filter (fun c => c.tag = tag))
  | .desc tag => nodes.flatMap (fun n => n.descendants.filter (fun c => c.tag = tag))

/-- `element.findall(path, ns)` over the embedded XPath subset. -/
def XmlTree.findall (t : XmlTree) (nsUri : Option String) (path : String) : List XmlTree :=
  match parsePath nsUri path with
  | none => []
  | some steps => steps.foldl (fun acc st => applyStep st acc) [t]

/-- `element.find(path, ns)`: first match in document order. -/
def XmlTree.findFirst (t : XmlTree) (nsUri : Option String) (path : String) : Option XmlTree :=
  (t.findall nsUri path).head?

def strEndsWith (s suff : String) : Bool :=
  startsWithL s.toList.reverse suff.toList.reverse

/-- `result.text` truthiness followed by `.strip()`, as `_find_text` uses it. -/
def textTruthy (r : XmlTree) : Option String :=
  match r.text with
  | some tx => if tx ≠ "" then some (pyStrip tx) else none
  | none => none

/-- The bare-localname full-tree scan of `_find_text` (strategy (d)): only for
paths without `/` and `:`; first element whose tag ends with (or equals) the
path and whose text is truthy. -/
def bareScan (element : XmlTree) (p : String) : Option String :=
  if ¬ p.toList.contains '/' ∧ ¬ p.toList.contains ':' then
    element.iterSelf.findSome? (fun c =>
      if strEndsWith c.tag p || c.tag = p then textTruthy c else none)
  else none

/-- One iteration of `_find_text`'s loop body for a single path. -/
def attemptPath (nsUri : Option String) (element : XmlTree) (p : String) : Option String :=
  match element.findFirst nsUri p with
  | some r =>
      match textTruthy r with
      | some v => some v
      | none => bareScan element p
  | none => bareScan element p

/-- `NFXMLParser._find_text`: try each path in order, return the first hit's
stripped text, else the default. -/
def find_text (nsUri : Option String) (element : XmlTree) (paths : List String)
    (dflt : String) : String :=
  (paths.findSome? (attemptPath nsUri element)).getD dflt

/-- Number of days of a month (proleptic Gregorian), as `datetime` validates. -/
def daysInMonth (y m : ℕ) : ℕ :=
  if m = 2 then (if y % 4 = 0 ∧ (y % 100 ≠ 0 ∨ y % 400 = 0) then 29 else 28)
  else if m = 4 ∨ m = 6 ∨ m = 9 ∨ m = 11 then 30
  else 31

/-- `strptime(s, "%Y-%m-%d")`-shaped prefix check over char lists. -/
def matchYMD (cs : List Char) : Option (ℕ × ℕ × ℕ) :=
  match cs with
  | [y1, y2, y3, y4, '-', m1, m2, '-', d1, d2] =>
      if [y1, y2, y3, y4, m1, m2, d1, d2].all Char.isDigit then
        let y := digitsToNat [y1, y2, y3, y4]
        let m := digitsToNat [m1, m2]
        let d := digitsToNat [d1, d2]
        if 1 ≤ m ∧ m ≤ 12 ∧ 1 ≤ d ∧ d ≤ daysInMonth y m then some (y, m, d) else none
      else none
  | _ => none

/-- `strptime(s, "%Y-%m-%d %H%M%S")` over char lists, yielding `.date()`. -/
def matchYMDHMS (cs : List Char) : Option (ℕ × ℕ × ℕ) :=
  match cs.splitOn ' ' with
  | [dpart, [h1, h2, n1, n2, s1, s2]] =>
      if [h1, h2, n1, n2, s1, s2].all Char.isDigit then
        let h := digitsToNat [h1, h2]
        let n := digitsToNat [n1, n2]
        let s := digitsToNat [s1, s2]
        if h ≤ 23 ∧ n ≤ 59 ∧ s ≤ 61 then matchYMD dpart else none
      else none
  | _ => none

/-- `NFXMLParser._parse_date`: squash `:` away and `T` to a space, truncate to
19 chars, and try the formats, which after the source's own squashing reduce
to `"%Y-%m-%d %H%M%S"` (twice) and `"%Y-%m-%d"`; the date part of a success
is returned, anything else yields `None`. -/
def parse_date (date_str : String) : Option (ℕ × ℕ × ℕ) :=
  if date_str = "" then none
  else
    let clean := ((date_str.toList.filter (· ≠ ':')).map
      (fun c => if c = 'T' then ' ' else c)).take 19
    match matchYMDHMS clean with
    | some d => some d
    | none => matchYMD clean

/-! ## `services/xml_parser.py` — dialect parsers

The Python parsers build dicts; they are modelled by structures whose fields
are `Option`-typed (`none` = key absent or value `None`: downstream consumers
collapse the two through `.get(...)`/`is not None` checks). -/

/-- Python `a or b` for optional floats stored into a dict value
(`0.0` is falsy). -/
def pyOrQOpt (a b : Option ℚ) : Option ℚ :=
  match a with
  | some x => if x ≠ 0 then some x else b
  | none => b

/-- Python `a or dflt` for an optional string (`None`/`""` falsy). -/
def pyOrStr (a : Option String) (dflt : String) : String :=
  if truthyS a then a.getD "" else dflt

structure ItemData where
  numero_item : Option String := none
  codigo_produto : Option String := none
  codigo_barras : Option String := none
  descricao : Option String := none
  ncm : Option String := none
  cfop : Option String := none
  codigo_tributacao_nacional : Option String := none
  codigo_nbs : Option String := none
  unidade : Option String := none
  quantidade : Option ℚ := none
  valor_unitario : Option ℚ := none
  valor_total : Option ℚ := none
  icms_cst : Option String := none
  icms_base_calculo : Option ℚ := none
  icms_aliquota : Option ℚ := none
  icms_valor : Option ℚ := none
  iss_base_calculo : Option ℚ := none
  iss_aliquota : Option ℚ := none
  iss_valor : Option ℚ := none

structure DocData where
  document_type : String
  chave_de_acesso : Option String := none
  numero : Option String := none
  serie : Option String := none
  data_emissao : Option (ℕ × ℕ × ℕ) := none
  emitente_cnpj : Option String := none
  emitente_razao_social : Option String := none
  emitente_ie : Option String := none
  emitente_uf : Option String := none
  emitente_im : Option String := none
  emitente_municipio : Option String := none
  tomador_cnpj : Option String := none
  tomador_razao_social : Option String := none
  tomador_ie : Option String := none
  valor_total : Option ℚ := none
  valor_produtos : Option ℚ := none
  valor_frete : Option ℚ := none
  valor_desconto : Option ℚ := none
  valor_bc_icms : Option ℚ := none
  valor_icms : Option ℚ := none
  valor_ipi : Option ℚ := none
  valor_pis : Option ℚ := none
  valor_cofins : Option ℚ := none
  valor_servicos : Option ℚ := none
  valor_bc_issqn : Option ℚ := none
  valor_issqn : Option ℚ := none
  aliquota_issqn : Option ℚ := none
  valor_liquido : Option ℚ := none
  valor_total_tributos_federais : Option ℚ := none
  valor_total_tributos_estaduais : Option ℚ := none
  valor_total_tributos_municipais : Option ℚ := none
  codigo_tributacao_nacional : Option String := none
  codigo_tributacao_municipal : Option String := none
  codigo_nbs : Option String := none
  descricao_servico : Option String := none
  regime_simples_nacional : Option String := none
  items : Option (List ItemData) := none

instance : Inhabited DocData := ⟨{ document_type := "" }⟩

/-- The `"\x7buri\x7dtag"` fallback path token built by
`".//{%s}infNFe" % self.namespace` (Python renders a `None` namespace as the
text `"None"`). -/
def bracedTag (nsUri : Option String) (loc : String) : String :=
  "\x7b" ++ (match nsUri with | some u => u | none => "None") ++ "\x7d" ++ loc

/-- `_parse_nfe`'s selection of the `infNFe` element (namespaced find, braced
raw-tag find, bare find, then the root itself). -/
def nfe_inf_element (root : XmlTree) (nsUri : Option String) : XmlTree :=
  match root.findFirst nsUri ".//n:infNFe" with
  | some e => e
  | none =>
      match root.findFirst none (".//" ++ bracedTag nsUri "infNFe") with
      | some e => e
      | none =>
          match root.findFirst none ".//infNFe" with
          | some e => e
          | none => root

/-- `_parse_nfe_items`'s selection of the `det` elements (same three-strategy
fallback), in document order. -/
def nfe_det_elements (inf_nfe : XmlTree) (nsUri : Option String) : List XmlTree :=
  let d1 := inf_nfe.findall nsUri ".//n:det"
  if ¬ d1.isEmpty then d1
  else
    let d2 := inf_nfe.findall none (".//" ++ bracedTag nsUri "det")
    if ¬ d2.isEmpty then d2 else inf_nfe.findall none ".//det"

/-- One NF-e line item, extracted from one `det` element. -/
def nfe_item_of_det (nsUri : Option String) (det : XmlTree) : ItemData :=
  { numero_item := det.attr "nItem"
    codigo_produto := some (find_text nsUri det [".//n:prod/n:cProd", ".//prod/cProd", "cProd"] "")
    codigo_barras := some (find_text nsUri det [".//n:prod/n:cEAN", ".//prod/cEAN", "cEAN"] "")
    descricao := some (find_text nsUri det [".//n:prod/n:xProd", ".//prod/xProd", "xProd"] "")
    ncm := some (find_text nsUri det [".//n:prod/n:NCM", ".//prod/NCM", "NCM"] "")
    cfop := some (find_text nsUri det [".//n:prod/n:CFOP", ".//prod/CFOP", "CFOP"] "")
    unidade := some (find_text nsUri det [".//n:prod/n:uCom", ".//prod/uCom", "uCom"] "")
    quantidade := some (parse_float (some
      (find_text nsUri det [".//n:prod/n:qCom", ".//prod/qCom", "qCom"] "")))
    valor_unitario := some (parse_currency (some
      (find_text nsUri det [".//n:prod/n:vUnCom", ".//prod/vUnCom", "vUnCom"] "")))
    valor_total := some (parse_currency (some
      (find_text nsUri det [".//n:prod/n:vProd", ".//prod/vProd", "vProd"] "")))
    icms_cst := some (find_text nsUri det [".//n:imposto/n:ICMS//n:CST", ".//imposto/ICMS//CST"] "")
    icms_base_calculo := some (parse_currency (some
      (find_text nsUri det [".//n:imposto/n:ICMS//n:vBC", ".//imposto/ICMS//vBC"] "")))
    icms_aliquota := some (parse_float (some
      (find_text nsUri det [".//n:imposto/n:ICMS//n:pICMS", ".//imposto/ICMS//pICMS"] "")))
    icms_valor := some (parse_currency (some
      (find_text nsUri det [".//n:imposto/n:ICMS//n:vICMS", ".//imposto/ICMS//vICMS"] ""))) }

/-- `NFXMLParser._parse_nfe`. -/
def parse_nfe (root : XmlTree) (nsUri : Option String) : DocData :=
  let inf := nfe_inf_element root nsUri
  let id_attr := (inf.attr "Id").getD ""
  { document_type := "NF-e"
    chave_de_acesso :=
      if startsWithL id_attr.toList "NFe".toList then some (id_attr.toList.drop 3).asString
      else none
    numero := some (find_text nsUri inf [".//n:ide/n:nNF", ".//ide/nNF", "nNF"] "")
    serie := some (find_text nsUri inf [".//n:ide/n:serie", ".//ide/serie", "serie"] "")
    data_emissao := parse_date (find_text nsUri inf [".//n:ide/n:dhEmi", ".//ide/dhEmi", "dhEmi"] "")
    emitente_cnpj := some (find_text nsUri inf [".//n:emit/n:CNPJ", ".//emit/CNPJ", "CNPJ"] "")
    emitente_razao_social := some (find_text nsUri inf [".//n:emit/n:xNome", ".//emit/xNome", "xNome"] "")
    emitente_ie := some (find_text nsUri inf [".//n:emit/n:IE", ".//emit/IE"] "")
    emitente_uf := some (find_text nsUri inf [".//n:emit/n:enderEmit/n:UF", ".//emit/enderEmit/UF"] "")
    tomador_cnpj := some (find_text nsUri inf [".//n:dest/n:CNPJ", ".//dest/CNPJ"] "")
    tomador_razao_social := some (find_text nsUri inf [".//n:dest/n:xNome", ".//dest/xNome"] "")
    tomador_ie := some (find_text nsUri inf [".//n:dest/n:IE", ".//dest/IE"] "")
    valor_total := some (parse_currency (some
      (find_text nsUri inf [".//n:total/n:ICMSTot/n:vNF", ".//total/ICMSTot/vNF"] "")))
    valor_produtos := some (parse_currency (some
      (find_text nsUri inf [".//n:total/n:ICMSTot/n:vProd", ".//total/ICMSTot/vProd"] "")))
    valor_frete := some (parse_currency (some
      (find_text nsUri inf [".//n:total/n:ICMSTot/n:vFrete", ".//total/ICMSTot/vFrete"] "")))
    valor_desconto := some (parse_currency (some
      (find_text nsUri inf [".//n:total/n:ICMSTot/n:vDesc", ".//total/ICMSTot/vDesc"] "")))
    valor_bc_icms := some (parse_currency (some
      (find_text nsUri inf [".//n:total/n:ICMSTot/n:vBC", ".//total/ICMSTot/vBC"] "")))
    valor_icms := some (parse_currency (some
      (find_text nsUri inf [".//n:total/n:ICMSTot/n:vICMS", ".//total/ICMSTot/vICMS"] "")))
    valor_ipi := some (parse_currency (some
      (find_text nsUri inf [".//n:total/n:ICMSTot/n:vIPI", ".//total/ICMSTot/vIPI"] "")))
    valor_pis := some (parse_currency (some
      (find_text nsUri inf [".//n:total/n:ICMSTot/n:vPIS", ".//total/ICMSTot/vPIS"] "")))
    valor_cofins := some (parse_currency (some
      (find_text nsUri inf [".//n:total/n:ICMSTot/n:vCOFINS", ".//total/ICMSTot/vCOFINS"] "")))
    items := some ((nfe_det_elements inf nsUri).map (nfe_item_of_det nsUri)) }

/-- `NFXMLParser._parse_cte` (a stub in the source: only the type). -/
def parse_cte : DocData :=
  { document_type := "CT-e" }

/-- `NFXMLParser._parse_nfse_sped`. -/
def parse_nfse_sped (root : XmlTree) (nsUri : Option String) : DocData :=
  let inf := (root.findFirst nsUri ".//n:infNFSe").getD root
  let id_attr := (inf.attr "Id").getD ""
  let ctn := find_text nsUri root [".//n:cServ/n:cTribNac", ".//cServ/cTribNac"] ""
  let cnbs := find_text nsUri root [".//n:cServ/n:cNBS", ".//cServ/cNBS"] ""
  let xdesc := find_text nsUri root [".//n:cServ/n:xDescServ", ".//cServ/xDescServ"] ""
  let vserv := parse_currency (some
    (find_text nsUri root [".//n:vServPrest/n:vServ", ".//vServPrest/vServ"] ""))
  let vbc := parse_currency (some (find_text nsUri inf [".//n:valores/n:vBC", ".//valores/vBC"] ""))
  let vissqn := parse_currency (some
    (find_text nsUri inf [".//n:valores/n:vISSQN", ".//valores/vISSQN"] ""))
  let paliq := parse_float (some
    (find_text nsUri inf [".//n:valores/n:pAliqAplic", ".//valores/pAliqAplic"] ""))
  let regime := find_text nsUri root [".//n:regTrib/n:opSimpNac", ".//regTrib/opSimpNac"] ""
  { document_type := "NFS-e"
    chave_de_acesso :=
      if startsWithL id_attr.toList "NFS".toList then some (id_attr.toList.drop 3).asString
      else none
    numero := some (find_text nsUri inf ["n:nNFSe", "nNFSe"] "")
    data_emissao := parse_date (find_text nsUri root [".//n:DPS//n:dhEmi", ".//DPS//dhEmi", "dhEmi"] "")
    emitente_cnpj := some (find_text nsUri inf [".//n:emit/n:CNPJ", ".//emit/CNPJ"] "")
    emitente_razao_social := some (find_text nsUri inf [".//n:emit/n:xNome", ".//emit/xNome"] "")
    emitente_im := some (find_text nsUri root [".//n:prest/n:IM", ".//prest/IM"] "")
    emitente_municipio := some
      (find_text nsUri inf [".//n:emit/n:enderNac/n:cMun", ".//emit/enderNac/cMun"] "")
    tomador_cnpj := some (find_text nsUri root [".//n:toma/n:CNPJ", ".//toma/CNPJ"] "")
    tomador_razao_social := some (find_text nsUri root [".//n:toma/n:xNome", ".//toma/xNome"] "")
    codigo_tributacao_nacional := some ctn
    codigo_tributacao_municipal := some
      (find_text nsUri root [".//n:cServ/n:cTribMun", ".//cServ/cTribMun"] "")
    codigo_nbs := some cnbs
    descricao_servico := some xdesc
    valor_servicos := some vserv
    valor_total := some vserv
    valor_bc_issqn := some vbc
    valor_issqn := some vissqn
    aliquota_issqn := some paliq
    valor_liquido := some (parse_currency (some
      (find_text nsUri inf [".//n:valores/n:vLiq", ".//valores/vLiq"] "")))
    valor_total_tributos_federais := some (parse_currency (some
      (find_text nsUri root [".//n:totTrib/n:vTotTribFed", ".//totTrib/vTotTribFed"] "")))
    valor_total_tributos_estaduais := some (parse_currency (some
      (find_text nsUri root [".//n:totTrib/n:vTotTribEst", ".//totTrib/vTotTribEst"] "")))
    valor_total_tributos_municipais := some (parse_currency (some
      (find_text nsUri root [".//n:totTrib/n:vTotTribMun", ".//totTrib/vTotTribMun"] "")))
    regime_simples_nacional :=
      if regime ≠ "" then
        some (regime ++ " - " ++
          (if regime = "1" then "MEI"
           else if regime = "2" then "Simples Nacional" else "Not Applicable"))
      else none
    items := some [{
      numero_item := some "1"
      codigo_produto := some (pyOrStr (some ctn) (pyOrStr (some cnbs) ""))
      codigo_tributacao_nacional := some ctn
      codigo_nbs := some cnbs
      descricao := some (pyOrStr (some xdesc) "Servico")
      quantidade := some 1
      valor_unitario := pyOrQOpt (some vserv) (some vserv)
      valor_total := pyOrQOpt (some vserv) (some vserv)
      unidade := some "UN"
      iss_base_calculo := some vbc
      iss_aliquota := some paliq
      iss_valor := some vissqn }] }

/-- `NFXMLParser._parse_nfse_abrasf`. -/
def parse_nfse_abrasf (root : XmlTree) (nsUri : Option String) : DocData :=
  let xdesc := find_text nsUri root [".//Servico//Discriminacao"] ""
  let vserv := parse_currency (some
    (find_text nsUri root [".//Servico//Valores//ValorServicos"] ""))
  let vissqn := parse_currency (some
    (find_text nsUri root [".//Servico//Valores//ValorIss"] ""))
  let paliq := parse_float (some
    (find_text nsUri root [".//Servico//Valores//Aliquota"] ""))
  let service_code := find_text nsUri root
    [".//Servico//ItemListaServico", ".//Servico//CodigoTributacaoMunicipio"] ""
  { document_type := "NFS-e"
    numero := some (find_text nsUri root [".//Numero", "Numero"] "")
    data_emissao := parse_date (find_text nsUri root [".//DataEmissao", "DataEmissao"] "")
    emitente_cnpj := some (find_text nsUri root [".//Prestador//Cnpj", ".//Prestador/Cnpj"] "")
    emitente_im := some (find_text nsUri root [".//Prestador//InscricaoMunicipal"] "")
    emitente_razao_social := some (find_text nsUri root [".//Prestador//RazaoSocial"] "")
    tomador_cnpj := some (find_text nsUri root [".//Tomador//Cnpj"] "")
    tomador_razao_social := some (find_text nsUri root [".//Tomador//RazaoSocial"] "")
    descricao_servico := some xdesc
    valor_servicos := some vserv
    valor_total := some vserv
    valor_issqn := some vissqn
    aliquota_issqn := some paliq
    items := some [{
      numero_item := some "1"
      codigo_produto := some (pyOrStr (some service_code) "")
      descricao := some (pyOrStr (some xdesc) "Servico")
      quantidade := some 1
      valor_unitario := pyOrQOpt (some vserv) (some vserv)
      valor_total := pyOrQOpt (some vserv) (some vserv)
      unidade := some "UN"
      iss_base_calculo := none
      iss_aliquota := some paliq
      iss_valor := some vissqn }] }

/-- `NFXMLParser._parse_nfse`: SPED when the detected namespace mentions
`sped`, else ABRASF. -/
def parse_nfse (root : XmlTree) (nsUri : Option String) : DocData :=
  if strContainsSub (strLower (nsUri.getD "")) "sped" then parse_nfse_sped root nsUri
  else parse_nfse_abrasf root nsUri

def NAMESPACES_nfe : String := "http://www.portalfiscal.inf.br/nfe"

def NAMESPACES_cte : String := "http://www.portalfiscal.inf.br/cte"

def NAMESPACES_nfse_sped : String := "http://www.sped.fazenda.gov.br/nfse"

def NAMESPACES_nfse_abrasf : String := "http://www.abrasf.org.br/nfse"

/-- Strip a leading/trailing brace character (`str.strip("\x7b")`). -/
def stripLBrace (l : List Char) : List Char :=
  ((l.dropWhile (· = lbraceC)).reverse.dropWhile (· = lbraceC)).reverse

/-- `root.tag.split("\x7d")[0].strip("\x7b")`, guarded by a brace check. -/
def extract_root_ns (tag : String) : String :=
  if tag.toList.contains lbraceC then
    (stripLBrace (tag.toList.takeWhile (· ≠ rbraceC))).asString
  else ""

/-- `NFXMLParser._detect_document_type`: returns the detected document type
and the namespace chosen for it, or `none` when no rule matches. -/
def detect_document_type (xml_content : String) (rootTag : String) :
    Option (String × String) :=
  let root_tag := strLower rootTag
  let root_ns := extract_root_ns rootTag
  if strContainsSub root_ns "portalfiscal.inf.br/nfe" || strContainsSub root_tag "nfe" then
    some ("NF-e", NAMESPACES_nfe)
  else if strContainsSub root_ns "portalfiscal.inf.br/cte" || strContainsSub root_tag "cte" then
    some ("CT-e", NAMESPACES_cte)
  else if strContainsSub root_ns "sped.fazenda.gov.br/nfse" then
    some ("NFS-e", NAMESPACES_nfse_sped)
  else if strContainsSub root_ns "abrasf.org.br" then
    some ("NFS-e", NAMESPACES_nfse_abrasf)
  else if strContainsSub root_tag "nfse" then
    some ("NFS-e",
      if strContainsSub (strLower xml_content) "sped" then NAMESPACES_nfse_sped
      else NAMESPACES_nfse_abrasf)
  else none

/-- `NFXMLParser.parse`: falsy input yields `None`; a `ParseError` from
`ET.fromstring` (modelled by the `none` input) yields `None`; detection
failure yields `None`; otherwise dispatch on the detected type.  Total, so no
exception propagates. -/
def parse (xml_content : String) (et_result : Option XmlTree) : Option DocData :=
  if xml_content = "" then none
  else
    match et_result with
    | none => none
    | some root =>
        match detect_document_type xml_content root.tag with
        | none => none
        | some (dt, nsUri) =>
            if dt = "NF-e" then some (parse_nfe root (some nsUri))
            else if dt = "CT-e" then some parse_cte
            else if dt = "NFS-e" then some (parse_nfse root (some nsUri))
            else none

/-! ## `services/po_matcher.py` — Purchase Order matching

The candidate list stands for the result of the external database query
(same-supplier, date-window, submitted, receivable/billable filters); each
candidate carries the queried row fields plus the loaded document's item
rows.  Monetary floats are exact rationals, dates are integer day numbers
(`(a - b).days` is their difference).  The human-readable message component
of the source's return triple is not modelled. -/

structure NFItemRow where
  item : Option String

structure POItemRow where
  item_code : String

structure POData where
  name : String
  grand_total : ℚ
  transaction_date : ℤ
  items : List POItemRow

structure NFDocPO where
  supplier : Option String
  valor_total : Option ℚ
  data_emissao : ℤ
  items : List NFItemRow

structure POSettings where
  po_match_tolerance_percent : Option ℚ

/-- Python `a or dflt` for an optional number (`None` and `0` falsy). -/
def pyOrQ (a : Option ℚ) (dflt : ℚ) : ℚ :=
  match a with
  | some x => if x ≠ 0 then x else dflt
  | none => dflt

/-- `POMatcher._calculate_item_match_score`: count the NF lines whose resolved
item appears among the PO lines; `int((matches / total) * 40)` is the floor,
taken here over exact rationals (`ℕ` division). -/
def calculate_item_match_score (nfItems : List NFItemRow) (poItems : List POItemRow) : ℕ :=
  if nfItems.isEmpty || poItems.isEmpty then 0
  else
    let nMatched := (nfItems.filter (fun it =>
      truthyS it.item && poItems.any (fun p => p.item_code = it.item.getD ""))).length
    if 0 < nfItems.length then (nMatched * 40) / nfItems.length else 0

/-- `POMatcher._calculate_match_score`. -/
def calculate_match_score (nf : NFDocPO) (po : POData) (tolerance : ℚ) : ℕ :=
  let valueScore : ℕ :=
    match nf.valor_total with
    | some nfv =>
        if nfv ≠ 0 ∧ po.grand_total ≠ 0 then
          if 0 < po.grand_total then
            let diff_pct := |nfv - po.grand_total| / po.grand_total
            if diff_pct ≤ tolerance then 30
            else if diff_pct ≤ tolerance * 2 then 15 else 0
          else 0
        else 0
    | none => 0
  let countScore : ℕ :=
    if nf.items.length = po.items.length then 20
    else if ((nf.items.length : ℤ) - (po.items.length : ℤ)).natAbs ≤ 2 then 10 else 0
  let itemScore := calculate_item_match_score nf.items po.items
  let dateScore : ℕ :=
    let dd := (nf.data_emissao - po.transaction_date).natAbs
    if dd ≤ 7 then 10 else if dd ≤ 14 then 5 else 0
  min (valueScore + countScore + itemScore + dateScore) 100

/-- One iteration of `auto_link_po`'s best-candidate loop
(`if score > best_score`, keeping the first candidate among equals). -/
def bestStep (nf : NFDocPO) (tolerance : ℚ) (acc : Option POData × ℕ) (po : POData) :
    Option POData × ℕ :=
  let score := calculate_match_score nf po tolerance
  if score > acc.2 then (some po, score) else acc

/-- The best-candidate fold of `auto_link_po`, starting from
`best_match = None`, `best_score = 0`. -/
def bestCandidate (nf : NFDocPO) (tolerance : ℚ) (candidates : List POData) :
    Option POData × ℕ :=
  candidates.foldl (bestStep nf tolerance) (none, 0)

/-- `POMatcher.auto_link_po` over the pre-filtered candidate list. -/
def auto_link_po (settings : POSettings) (nf : NFDocPO) (candidates : List POData) :
    Option String × String :=
  if ¬ truthyS nf.supplier then (none, "Not Applicable")
  else if candidates.isEmpty then (none, "Not Found")
  else
    let tolerance := pyOrQ settings.po_match_tolerance_percent 5 / 100
    let best := bestCandidate nf tolerance candidates
    if 50 ≤ best.2 then (best.1.map POData.name, "Linked")
    else if 30 ≤ best.2 then (best.1.map POData.name, "Partial Match")
    else (none, "Not Found")

/-! Spec-side sub-scores, worded as the claim states them. -/

/-- Value proximity: 30 within tolerance, 15 within twice the tolerance. -/
def spec_value_subscore (relDiff tolerance : ℚ) : ℕ :=
  if relDiff ≤ tolerance then 30 else if relDiff ≤ 2 * tolerance then 15 else 0

/-- Line-count proximity: 20 if equal, 10 if within 2. -/
def spec_line_count_subscore (a b : ℕ) : ℕ :=
  if a = b then 20 else if ((a : ℤ) - (b : ℤ)).natAbs ≤ 2 then 10 else 0

/-- Item-code overlap: fraction of document lines whose resolved code appears
in the candidate's lines, times 40, truncated. -/
def spec_item_overlap_subscore (nfItems : List NFItemRow) (poItems : List POItemRow) : ℕ :=
  ((nfItems.filter (fun it =>
    truthyS it.item && poItems.any (fun p => p.item_code = it.item.getD ""))).length * 40)
    / nfItems.length

/-- Date proximity: 10 within 7 days, 5 within 14 days. -/
def spec_date_subscore (d : ℕ) : ℕ :=
  if d ≤ 7 then 10 else if d ≤ 14 then 5 else 0

/-- The spec scenario: document total 1000, two lines with resolved items not
on the PO; candidate PO total 1020, same day, two lines. -/
def nfScenario : NFDocPO :=
  { supplier := some "SUP-0001"
    valor_total := some 1000
    data_emissao := 739000
    items := [{ item := some "ITEM-A" }, { item := some "ITEM-B" }] }

def poScenario : POData :=
  { name := "PO-0001"
    grand_total := 1020
    transaction_date := 739000
    items := [{ item_code := "OTHER-1" }, { item_code := "OTHER-2" }] }

/-! ## `services/item_manager.py` — item resolution aggregate

`process_single_item` consults the database and settings (external); one
call's outcome is modelled as an `ItemOutcome`: a returned `(item_code,
status)` pair or a raised exception (caught by the loop, which records
`Failed`).  `process_nf_items` aggregates the per-line outcomes. -/

inductive ItemOutcome where
  | ok (item_code : Option String) (status : String)
  | raised (e : String)

/-- Status classification of one loop iteration of `process_nf_items`:
`(created, linked, failed)` increments. -/
def itemOutcomeCounts (o : ItemOutcome) : ℕ × ℕ × ℕ :=
  match o with
  | .ok _ status =>
      if status = "Created" then (1, 0, 0)
      else if status = "Linked" then (0, 1, 0)
      else (0, 0, 1)
  | .raised _ => (0, 0, 1)

/-- `ItemManager.process_nf_items`: returns
`(items_created, total_items, status)` where the aggregate status is
`"All Created"` when no line failed, `"Failed"` when all lines failed, else
`"Partial"`. -/
def process_nf_items (outcomes : List ItemOutcome) : ℕ × ℕ × String :=
  let total := outcomes.length
  let counts := outcomes.foldl
    (fun acc o =>
      let c := itemOutcomeCounts o
      (acc.1 + c.1, acc.2.1 + c.2.1, acc.2.2 + c.2.2))
    ((0 : ℕ), (0 : ℕ), (0 : ℕ))
  let created := counts.1
  let linked := counts.2.1
  let failed := counts.2.2
  let status :=
    if failed = 0 then "All Created"
    else if failed = total then "Failed"
    else "Partial"
  (created + linked, total, status)

/-! ## `services/processor.py` — the processing pipeline

`NFProcessor.process` orchestrates the stages.  The stage services
(supplier manager, item manager, PO matcher, invoice creator) touch the
database, so their calls are modelled by a `StageEnv` of functions whose
`Except` results model Python return values vs. raised exceptions; the
`try/except` of `process` catches every stage exception.  The persisted
record is threaded as an explicit `NFDoc`; each `nf_doc.save()` appends the
current `processing_status` to a trace, so "which stages were entered" is
observable in the result. -/

structure NFDoc where
  name : String
  cancelada : Bool
  processing_status : String
  processing_error : Option String
  supplier : Option String
  supplier_status : Option String
  item_creation_status : Option String
  po_status : Option String
  purchase_order : Option String

structure NFSettings where
  enable_po_matching : Bool
  auto_create_invoice : Bool
  invoice_submit_mode : String

structure StageEnv where
  process_supplier : NFDoc → Except String (Option String × String)
  process_items : NFDoc → Except String (ℕ × ℕ × String)
  match_po : NFDoc → Except String (Option String × String)
  create_invoice : NFDoc → Except String Unit

/-- The message of the `frappe.throw` guarding cancelled documents. -/
def cancelledMsg : String :=
  "Cannot process a cancelled document. This Nota Fiscal was cancelled at SEFAZ."

/-- The `except` branch of `process`: status `Error`, message retained,
record saved. -/
def failDoc (nf : NFDoc) (e : String) : NFDoc :=
  { nf with processing_status := "Error", processing_error := some e }

/-- Completion tail of `process` (status `Completed`, saved). -/
def processComplete (nf : NFDoc) (trace : List String) :
    Except String (NFDoc × List String) :=
  Except.ok ({ nf with processing_status := "Completed" }, trace ++ ["Completed"])

/-- Step 5 of `process`: invoice creation, gated on configuration, a linked
supplier, and `item_creation_status == "All Created"`. -/
def processInvoiceStage (settings : NFSettings) (env : StageEnv) (nf : NFDoc)
    (trace : List String) : Except String (NFDoc × List String) :=
  if settings.auto_create_invoice && truthyS nf.supplier &&
      nf.item_creation_status == some "All Created" then
    let nf5 := { nf with processing_status := "Invoice Creation" }
    let tr5 := trace ++ ["Invoice Creation"]
    match env.create_invoice nf5 with
    | .error e => Except.ok (failDoc nf5 e, tr5 ++ ["Error"])
    | .ok _ => processComplete nf5 tr5
  else processComplete nf trace

/-- Step 4 of `process`: PO matching, gated on configuration and a linked
supplier. -/
def processPOStage (settings : NFSettings) (env : StageEnv) (nf : NFDoc)
    (trace : List String) : Except String (NFDoc × List String) :=
  if settings.enable_po_matching && truthyS nf.supplier then
    let nf4 := { nf with processing_status := "PO Matching" }
    let tr4 := trace ++ ["PO Matching"]
    match env.match_po nf4 with
    | .error e => Except.ok (failDoc nf4 e, tr4 ++ ["Error"])
    | .ok (po_name, pst) =>
        processInvoiceStage settings env
          { nf4 with purchase_order := po_name, po_status := some pst } tr4
  else processInvoiceStage settings env nf trace

/-- `NFProcessor.process`: hard-reject cancelled documents (`frappe.throw`,
modelled by `Except.error` — the only way this function fails); otherwise run
the stages, persisting the stage status before each stage body, catching any
stage exception into the `Error` state.  The successful result is the final
record and the trace of saved statuses. -/
def NFProcessor.process (settings : NFSettings) (env : StageEnv) (nf0 : NFDoc) :
    Except String (NFDoc × List String) :=
  if nf0.cancelada || nf0.processing_status == "Cancelled" then
    Except.error cancelledMsg
  else
    let nf1 :=
      if nf0.processing_status == "New" then { nf0 with processing_status := "Parsed" }
      else nf0
    let nf2 := { nf1 with processing_status := "Supplier Processing" }
    let tr2 := ["Supplier Processing"]
    match env.process_supplier nf2 with
    | .error e => Except.ok (failDoc nf2 e, tr2 ++ ["Error"])
    | .ok (sup, sst) =>
        let nf3 := { nf2 with
          supplier := sup
          supplier_status := some sst
          processing_status := "Item Processing" }
        let tr3 := tr2 ++ ["Item Processing"]
        match env.process_items nf3 with
        | .error e => Except.ok (failDoc nf3 e, tr3 ++ ["Error"])
        | .ok (_, _, ist) =>
            processPOStage settings env { nf3 with item_creation_status := some ist } tr3

/-- A fresh record as ingestion creates it. -/
def freshNFDoc : NFDoc :=
  { name := "NF-0001"
    cancelada := false
    processing_status := "New"
    processing_error := none
    supplier := none
    supplier_status := none
    item_creation_status := none
    po_status := none
    purchase_order := none }

/-- A stage environment whose item stage reports the aggregate of an empty
item list, and whose other stages succeed. -/
def emptyItemsEnv : StageEnv :=
  { process_supplier := fun _ => Except.ok (some "SUP-0001", "Linked")
    process_items := fun _ => Except.ok (process_nf_items [])
    match_po := fun _ => Except.ok (none, "Not Found")
    create_invoice := fun _ => Except.ok () }

def autoInvoiceSettings : NFSettings :=
  { enable_po_matching := false
    auto_create_invoice := true
    invoice_submit_mode := "Draft" }

/-! ## `services/dfe_client.py` — ingestion and cancellation events

The persistence layer is modelled by `FiscalDB`, a list of `FiscalRec`
(primary-key names are unique, so the source's find-name-then-update-by-name
is modelled as update-first-matching).  The base64/gzip payload decode
(`_decode_xml`) and the SEFAZ transport are external per the spec; a
document's decode outcome is carried as an `Except` (an error propagates to
the per-document `try/except` of the fetch loop).  `NFXMLParser.parse` on
the payload is embedded separately (§ xml_parser); for the dedup logic only
its success and extracted `chave_de_acesso` are read back, so the inbound
record carries that outcome.  Timestamps (`now_datetime`) are external and
not modelled. -/

structure FiscalRec where
  name : String
  chave_de_acesso : Option String
  nsu : Option String
  company : String
  origin_sefaz : Bool
  cancelada : Bool
  processing_status : String
  status_sefaz : Option String
  purchase_invoice : Option String
  eventos : List String

structure FiscalDB where
  records : List FiscalRec

/-- Update the first list element satisfying the predicate. -/
def updateFirst (p : α → Bool) (f : α → α) : List α → List α
  | [] => []
  | x :: xs => if p x then f x :: xs else x :: updateFirst p f xs

def chaveMatches (c : String) (r : FiscalRec) : Bool :=
  r.chave_de_acesso == some c

/-- `frappe.db.exists("Nota Fiscal", {"chave_de_acesso": chave})`. -/
def FiscalDB.existsChave (db : FiscalDB) (c : String) : Bool :=
  db.records.any (chaveMatches c)

/-- `frappe.db.exists("Nota Fiscal", {"nsu": ..., "company": ...})`. -/
def FiscalDB.existsNSU (db : FiscalDB) (n company : String) : Bool :=
  db.records.any (fun r => r.nsu == some n && r.company == company)

/-- `frappe.db.get_value`/`frappe.get_doc` by access key (first match). -/
def FiscalDB.getByChave (db : FiscalDB) (c : String) : Option FiscalRec :=
  db.records.find? (chaveMatches c)

/-- Number of stored records with the given access key. -/
def FiscalDB.countChave (db : FiscalDB) (c : String) : ℕ :=
  (db.records.filter (chaveMatches c)).length

/-- `frappe.db.set_value(..., {"origin_sefaz": 1})` on the record found by
access key. -/
def setOriginTrue (r : FiscalRec) : FiscalRec :=
  { r with origin_sefaz := true }

inductive PIStatus where
  | draft
  | submitted
  | cancelled

/-- Outcomes of the external document operations `pi_doc.cancel()` and
`frappe.delete_doc` (they may raise, e.g. for linked payment entries). -/
structure PIEnv where
  cancel_ok : Bool
  cancel_err : String
  delete_ok : Bool
  delete_err : String

/-- The result dict of `_handle_linked_purchase_invoice`. -/
structure PIResult where
  success : Bool
  document_type : String
  document_name : String
  message : String
  action_required : Option String

/-- `_handle_linked_purchase_invoice`: already-cancelled is a no-op success;
a submitted invoice is cancel-attempted, with failure reported (not raised)
as `action_required = "Manual cancellation required"`; a draft is deleted,
with failure reported as `action_required = "Manual deletion required"`; a
failing document load falls into the outer catch (`Check document status`).
Returns the result dict and the invoice's resulting state (`none` when
deleted or missing). -/
def handle_linked_purchase_invoice (pi : Option PIStatus) (pi_name : String) (env : PIEnv) :
    PIResult × Option PIStatus :=
  match pi with
  | none =>
      (⟨false, "Purchase Invoice", pi_name, "document not found",
        some "Check document status"⟩, none)
  | some .cancelled =>
      (⟨true, "Purchase Invoice", pi_name, "Already cancelled", none⟩, some .cancelled)
  | some .submitted =>
      if env.cancel_ok then
        (⟨true, "Purchase Invoice", pi_name, "Cancelled successfully", none⟩, some .cancelled)
      else
        (⟨false, "Purchase Invoice", pi_name, env.cancel_err,
          some "Manual cancellation required"⟩, some .submitted)
  | some .draft =>
      if env.delete_ok then
        (⟨true, "Purchase Invoice", pi_name, "Draft deleted", none⟩, none)
      else
        (⟨false, "Purchase Invoice", pi_name, env.delete_err,
          some "Manual deletion required"⟩, some .draft)

def cancellation_indicators : List String :=
  ["cancelamento", "cancel", "101101", "101", "e101101"]

/-- `any(ind in (tipo_evento or "").lower() for ind in cancellation_indicators)`. -/
def isCancellationEvento (tipo_evento : Option String) : Bool :=
  cancellation_indicators.any (fun ind => strContainsSub (strLower (tipo_evento.getD "")) ind)

/-- The field update of the `frappe.db.set_value` marking a record cancelled
(`cancelada = 1`, `status_sefaz = "Cancelada"`,
`processing_status = "Cancelled"`; `data_cancelamento` is a timestamp,
external). -/
def cancelUpdate (r : FiscalRec) : FiscalRec :=
  { r with
    cancelada := true
    status_sefaz := some "Cancelada"
    processing_status := "Cancelled" }

/-- The `frappe.db.set_value` call marking the found record cancelled. -/
def markCancelled (db : FiscalDB) (c : String) : FiscalDB :=
  ⟨updateFirst (chaveMatches c) cancelUpdate db.records⟩

/-- The eventos-row append of the guarded
`nf_doc.append("eventos", ...); nf_doc.save()` step. -/
def eventoUpdate (r : FiscalRec) : FiscalRec :=
  { r with eventos := r.eventos ++ ["Cancelamento"] }

def appendCancelEvento (db : FiscalDB) (c : String) : FiscalDB :=
  ⟨updateFirst (chaveMatches c) eventoUpdate db.records⟩

/-- External state consulted by `_process_evento`: the linked Purchase
Invoice's docstatus (`none` = `get_doc` raises), the document-operation
outcomes, and whether the eventos-append save succeeds (its failure is
caught and only logged). -/
structure EventoEnv where
  pi_state : Option PIStatus
  pi_env : PIEnv
  save_event_ok : Bool

/-- `_process_evento`: no-op for falsy/unknown keys; for a cancellation
event, compensate a truthy linked Purchase Invoice (collecting the result as
an issue if unsuccessful), then unconditionally mark the record cancelled,
optionally store the event, and invoke the alert when issues remain.  The
returned triple is (database, issues, alert-invoked); a payload-decode error
propagates as `Except.error` (caught by the fetch loop). -/
def process_evento (db : FiscalDB) (chave_acesso : Option String) (tipo_evento : Option String)
    (xml : Except String (Option String)) (env : EventoEnv) :
    Except String (FiscalDB × List PIResult × Bool) :=
  if ¬ truthyS chave_acesso then Except.ok (db, [], false)
  else
    let c := chave_acesso.getD ""
    match db.getByChave c with
    | none => Except.ok (db, [], false)
    | some nf =>
        match xml with
        | .error e => Except.error e
        | .ok xml_content =>
            if isCancellationEvento tipo_evento then
              let issues :=
                if truthyS nf.purchase_invoice then
                  let res := (handle_linked_purchase_invoice env.pi_state
                    (nf.purchase_invoice.getD "") env.pi_env).1
                  if res.success then [] else [res]
                else []
              let db1 := markCancelled db c
              let db2 :=
                if truthyS xml_content && env.save_event_ok then appendCancelEvento db1 c
                else db1
              Except.ok (db2, issues, !issues.isEmpty)
            else Except.ok (db, [], false)

/-- One inbound fetched document of the NFS-e distribution loop. -/
structure InboundDoc where
  nsu : Option String
  chave : Option String
  tipo_documento : Option String
  tipo_evento : Option String
  xml : Except String (Option String)
  parse_ok : Bool
  parsed_chave : Option String

structure IngestCounts where
  created : ℕ
  skipped : ℕ
  events : ℕ
  failed : ℕ

/-- `_create_nota_fiscal_from_xml`, reduced to the fields the dedup logic and
the cancellation handler read back: a parse failure raises `ValueError`; a
created record stores `origin_sefaz = 1`, the passed chave — overridden by a
parsed `chave_de_acesso` through the `setattr` loop when the parser produced
one — and the stringified NSU. -/
def create_nota_fiscal (d : InboundDoc) (company : String) (fresh_name : String) :
    Except String FiscalRec :=
  if ¬ d.parse_ok then Except.error "Failed to parse XML"
  else
    Except.ok
      { name := fresh_name
        chave_de_acesso :=
          match d.parsed_chave with
          | some pc => some pc
          | none => if truthyS d.chave then d.chave else none
        nsu := d.nsu
        company := company
        origin_sefaz := true
        cancelada := false
        processing_status := "New"
        status_sefaz := none
        purchase_invoice := none
        eventos := [] }

/-- One iteration of `_fetch_nfse_documents`' per-document loop, wrapped in
its `try/except` (an exception increments `failed`): events are dispatched
to `_process_evento`; otherwise decode, merge duplicates by access key
(setting the origin flag on the existing record and counting a skip), skip
NSU duplicates, else create. -/
def ingest_doc (company : String) (env : EventoEnv) (db : FiscalDB) (d : InboundDoc)
    (fresh_name : String) : FiscalDB × IngestCounts :=
  if d.tipo_documento == some "EVENTO" then
    match process_evento db d.chave d.tipo_evento d.xml env with
    | .error _ => (db, ⟨0, 0, 0, 1⟩)
    | .ok (db', _, _) => (db', ⟨0, 0, 1, 0⟩)
  else
    match d.xml with
    | .error _ => (db, ⟨0, 0, 0, 1⟩)
    | .ok _ =>
        if truthyS d.chave && db.existsChave (d.chave.getD "") then
          (⟨updateFirst (chaveMatches (d.chave.getD "")) setOriginTrue db.records⟩,
            ⟨0, 1, 0, 0⟩)
        else if truthyS d.nsu && db.existsNSU (d.nsu.getD "") company then
          (db, ⟨0, 1, 0, 0⟩)
        else
          match create_nota_fiscal d company fresh_name with
          | .error _ => (db, ⟨0, 0, 0, 1⟩)
          | .ok rec => (⟨db.records ++ [rec]⟩, ⟨1, 0, 0, 0⟩)

/-- The full fetch loop over a batch (each document paired with the name the
insert would allocate), counts aggregated. -/
def ingest_batch (company : String) (env : EventoEnv) :
    FiscalDB → List (InboundDoc × String) → FiscalDB × IngestCounts
  | db, [] => (db, ⟨0, 0, 0, 0⟩)
  | db, (d, fresh) :: rest =>
      let step := ingest_doc company env db d fresh
      let restRes := ingest_batch company env step.1 rest
      (restRes.1,
        ⟨step.2.created + restRes.2.created, step.2.skipped + restRes.2.skipped,
          step.2.events + restRes.2.events, step.2.failed + restRes.2.failed⟩)

/-- The best (maximum) score over the candidate list. -/
def maxScore (nf : NFDocPO) (tol : ℚ) (candidates : List POData) : ℕ :=
  (candidates.map (fun po => calculate_match_score nf po tol)).foldl max 0

/-- A concrete minimal NFS-e document (ABRASF dialect by content sniffing). -/
def sampleNfseTree : XmlTree := .mk "Nfse" [] none .nil

def sampleNfseDoc : DocData := (parse "x" (some sampleNfseTree)).getD default

/-- The record `_create_nota_fiscal_from_xml` stores for an inbound document
whose final access key is `c` (see `create_nota_fiscal`). -/
def mkIngestRec (d : InboundDoc) (company fresh c : String) : FiscalRec :=
  { name := fresh
    chave_de_acesso := some c
    nsu := d.nsu
    company := company
    origin_sefaz := true
    cancelada := false
    processing_status := "New"
    status_sefaz := none
    purchase_invoice := none
    eventos := [] }

/-- The spec scenario database: a Completed record with a submitted linked
Purchase Invoice. -/
def sampleCancelDB : FiscalDB :=
  ⟨[{ name := "NF-9"
      chave_de_acesso := some "K9"
      nsu := some "9"
      company := "COMP"
      origin_sefaz := true
      cancelada := false
      processing_status := "Completed"
      status_sefaz := none
      purchase_invoice := some "PI-9"
      eventos := [] }]⟩

/-- The spec scenario environment: the invoice cancel raises (payment
entries). -/
def sampleCancelEnv : EventoEnv :=
  { pi_state := some .submitted
    pi_env := ⟨false, "Cannot cancel: linked payment entries", true, ""⟩
    save_event_ok := true }

/-! ## Supporting lemmas -/

lemma chaveWeights_getD (m : ℕ) : chaveWeights.getD (m % 8) 0 = 2 + m % 8 := by
  have h : m % 8 < 8 := Nat.mod_lt _ (by norm_num)
  set r := m % 8 with hr
  interval_cases r <;> rfl

lemma chaveTotal_eq_spec_total (ds : List ℕ) :
    chaveTotal ds = ∑ i ∈ Finset.range 43, ds.getD i 0 * (2 + (42 - i) % 8) := by
  rw [chaveTotal,
    ← Finset.sum_range_reflect (fun i => ds.getD i 0 * (2 + (42 - i) % 8)) 43]
  refine Finset.sum_congr rfl (fun k hk => ?_)
  simp only [Finset.mem_range] at hk
  have h1 : 43 - 1 - k = 42 - k := by omega
  have h2 : 42 - (42 - k) = k := by omega
  rw [h1, h2, chaveWeights_getD]

lemma clean_chave_all_digits (s : String) :
    ((clean_chave s).toList.all Char.isDigit) = true := by
  rw [clean_chave, List.toList_asString]
  exact List.all_eq_true.mpr (fun a ha => (List.mem_filter.mp ha).2)

lemma clean_cnpj_idem (x : String) : clean_cnpj (clean_cnpj x) = clean_cnpj x := by
  simp only [clean_cnpj, List.toList_asString, List.filter_filter]
  congr 1
  exact List.filter_congr (fun a _ => by cases h : a.isDigit <;> simp [h])

lemma item_score_eq_spec (l1 : List NFItemRow) (l2 : List POItemRow) :
    calculate_item_match_score l1 l2 = spec_item_overlap_subscore l1 l2 := by
  rw [calculate_item_match_score, spec_item_overlap_subscore]
  by_cases h1 : l1.isEmpty
  · rw [if_pos (by simp [h1])]
    have h1' : l1 = [] := List.isEmpty_iff.mp h1
    subst h1'
    simp
  · by_cases h2 : l2.isEmpty
    · rw [if_pos (by simp [h2])]
      have h2' : l2 = [] := List.isEmpty_iff.mp h2
      subst h2'
      simp
    · have hlen : 0 < l1.length := by
        cases l1 with
        | nil => simp at h1
        | cons a t => simp
      rw [if_neg (by simp [h1, h2]), if_pos hlen]

/-- Decomposition of `_calculate_match_score` into the claim's four named
sub-scores, under the truthy-value guards. -/
lemma match_score_decomp (nf : NFDocPO) (po : POData) (tol v : ℚ)
    (hv : nf.valor_total = some v) (hv0 : 0 < v) (hpo0 : 0 < po.grand_total) :
    calculate_match_score nf po tol =
      min (spec_value_subscore (|v - po.grand_total| / po.grand_total) tol +
        spec_line_count_subscore nf.items.length po.items.length +
        spec_item_overlap_subscore nf.items po.items +
        spec_date_subscore ((nf.data_emissao - po.transaction_date).natAbs)) 100 := by
  rw [calculate_match_score, hv]
  dsimp only
  rw [if_pos ⟨ne_of_gt hv0, ne_of_gt hpo0⟩, if_pos hpo0, item_score_eq_spec,
    spec_value_subscore, spec_line_count_subscore, spec_date_subscore, mul_comm (2 : ℚ) tol]

lemma bestCandidate_go_snd (nf : NFDocPO) (tol : ℚ) (l : List POData) :
    ∀ acc : Option POData × ℕ,
      (l.foldl (bestStep nf tol) acc).2 =
        (l.map (fun po => calculate_match_score nf po tol)).foldl max acc.2 := by
  induction l with
  | nil => intro acc; rfl
  | cons p t ih =>
      intro acc
      simp only [List.foldl_cons, List.map_cons]
      rw [ih]
      congr 1
      rw [bestStep]
      split <;> omega

lemma bestCandidate_go_fst (nf : NFDocPO) (tol : ℚ) (l : List POData) :
    ∀ acc : Option POData × ℕ,
      (∀ q, acc.1 = some q → calculate_match_score nf q tol = acc.2) →
      ∀ po, (l.foldl (bestStep nf tol) acc).1 = some po →
        calculate_match_score nf po tol = (l.foldl (bestStep nf tol) acc).2 ∧
          (po ∈ l ∨ acc.1 = some po) := by
  induction l with
  | nil => exact fun acc hacc po h => ⟨hacc po h, Or.inr h⟩
  | cons p t ih =>
      intro acc hacc po h
      simp only [List.foldl_cons] at h ⊢
      have hacc' : ∀ q, (bestStep nf tol acc p).1 = some q →
          calculate_match_score nf q tol = (bestStep nf tol acc p).2 := by
        intro q hq
        rw [bestStep] at hq ⊢
        by_cases hcmp : calculate_match_score nf p tol > acc.2
        · rw [if_pos hcmp] at hq ⊢
          cases hq
          rfl
        · rw [if_neg hcmp] at hq ⊢
          exact hacc q hq
      obtain ⟨h1, h2⟩ := ih (bestStep nf tol acc p) hacc' po h
      refine ⟨h1, ?_⟩
      rcases h2 with hm | he
      · exact Or.inl (List.mem_cons_of_mem _ hm)
      · rw [bestStep] at he
        by_cases hcmp : calculate_match_score nf p tol > acc.2
        · rw [if_pos hcmp] at he
          cases he
          exact Or.inl (List.mem_cons_self _ _)
        · rw [if_neg hcmp] at he
          exact Or.inr he

lemma bestCandidate_go_none (nf : NFDocPO) (tol : ℚ) (l : List POData) :
    ∀ acc : Option POData × ℕ,
      (l.foldl (bestStep nf tol) acc).1 = none →
        (l.foldl (bestStep nf tol) acc).2 = acc.2 ∧ acc.1 = none := by
  induction l with
  | nil => intro acc h; exact ⟨rfl, h⟩
  | cons p t ih =>
      intro acc h
      simp only [List.foldl_cons] at h ⊢
      obtain ⟨h1, h2⟩ := ih (bestStep nf tol acc p) h
      have hstep : bestStep nf tol acc p = acc := by
        rw [bestStep] at h2 ⊢
        by_cases hcmp : calculate_match_score nf p tol > acc.2
        · rw [if_pos hcmp] at h2
          exact absurd h2 (by simp)
        · rw [if_neg hcmp]
      rw [hstep] at h1 h2 ⊢
      exact ⟨h1, h2⟩

lemma bestCandidate_fst (nf : NFDocPO) (tol : ℚ) (candidates : List POData) :
    ∀ po, (bestCandidate nf tol candidates).1 = some po →
      calculate_match_score nf po tol = (bestCandidate nf tol candidates).2 ∧
        po ∈ candidates := by
  intro po h
  rw [bestCandidate] at h ⊢
  obtain ⟨h1, h2⟩ := bestCandidate_go_fst nf tol candidates (none, 0) (by simp) po h
  exact ⟨h1, h2.resolve_right (by simp)⟩

lemma bestCandidate_none (nf : NFDocPO) (tol : ℚ) (candidates : List POData) :
    (bestCandidate nf tol candidates).1 = none → (bestCandidate nf tol candidates).2 = 0 := by
  intro h
  rw [bestCandidate] at h ⊢
  exact (bestCandidate_go_none nf tol candidates (none, 0) h).1

lemma bestCandidate_snd (nf : NFDocPO) (tol : ℚ) (candidates : List POData) :
    (bestCandidate nf tol candidates).2 = maxScore nf tol candidates := by
  rw [bestCandidate, maxScore]
  exact bestCandidate_go_snd nf tol candidates (none, 0)

lemma scenario_score : calculate_match_score nfScenario poScenario (5 / 100) = 60 := by
  rw [match_score_decomp nfScenario poScenario (5 / 100) 1000 rfl (by norm_num)
    (by show (0 : ℚ) < 1020; norm_num)]
  have h1 : spec_value_subscore (|(1000 : ℚ) - poScenario.grand_total| / poScenario.grand_total)
      (5 / 100) = 30 := by
    show spec_value_subscore (|(1000 : ℚ) - 1020| / 1020) (5 / 100) = 30
    rw [spec_value_subscore, if_pos]
    rw [show |(1000 : ℚ) - 1020| = 20 from by rw [abs_sub_comm]; rw [abs_of_nonneg] <;> norm_num]
    norm_num
  have h2 : spec_line_count_subscore nfScenario.items.length poScenario.items.length = 20 := by
    decide
  have h3 : spec_item_overlap_subscore nfScenario.items poScenario.items = 0 := by decide
  have h4 : spec_date_subscore ((nfScenario.data_emissao - poScenario.transaction_date).natAbs)
      = 10 := by decide
  rw [h1, h2, h3, h4]
  decide

lemma scenario_link :
    auto_link_po ⟨some 5⟩ nfScenario [poScenario] = (some "PO-0001", "Linked") := by
  rw [auto_link_po, if_neg (by decide), if_neg (by decide)]
  dsimp only
  have htol : pyOrQ (some (5 : ℚ)) 5 = 5 := by
    show (if (5 : ℚ) ≠ 0 then (5 : ℚ) else 5) = 5
    split <;> rfl
  rw [htol]
  have hbc : bestCandidate nfScenario (5 / 100) [poScenario] = (some poScenario, 60) := by
    rw [bestCandidate]
    simp only [List.foldl_cons, List.foldl_nil]
    rw [bestStep, scenario_score, if_pos (by norm_num)]
  rw [hbc, if_pos (by norm_num)]
  rfl

lemma updateFirst_length (p : α → Bool) (f : α → α) :
    ∀ l : List α, (updateFirst p f l).length = l.length := by
  intro l
  induction l with
  | nil => rfl
  | cons x xs ih =>
      rw [updateFirst]
      by_cases hx : p x = true
      · rw [if_pos hx]
        simp [ih]
      · rw [if_neg hx]
        simp [ih]

lemma updateFirst_filter_length (p : α → Bool) (f : α → α) (hf : ∀ x, p (f x) = p x) :
    ∀ l : List α, ((updateFirst p f l).filter p).length = (l.filter p).length := by
  intro l
  induction l with
  | nil => rfl
  | cons x xs ih =>
      rw [updateFirst]
      by_cases hx : p x = true
      · rw [if_pos hx]
        simp [List.filter_cons, hf, hx]
      · rw [if_neg hx]
        simp only [List.filter_cons]
        rw [show p x = false from by simpa using hx]
        simp [ih, show p x = false from by simpa using hx]

lemma find?_updateFirst (p : α → Bool) (f : α → α) (hf : ∀ x, p (f x) = p x) :
    ∀ l : List α, (updateFirst p f l).find? p = (l.find? p).map f := by
  intro l
  induction l with
  | nil => rfl
  | cons x xs ih =>
      rw [updateFirst]
      by_cases hx : p x = true
      · rw [if_pos hx]
        rw [List.find?_cons_of_pos _ (by rw [hf]; exact hx), List.find?_cons_of_pos _ hx]
        rfl
      · rw [if_neg hx]
        have hx' : p x = false := by simpa using hx
        rw [List.find?_cons_of_neg _ (by simp [hx']), List.find?_cons_of_neg _ (by simp [hx']),
          ih]

lemma mem_updateFirst {p : α → Bool} {f : α → α} :
    ∀ {l : List α} {r : α}, r ∈ updateFirst p f l → r ∈ l ∨ ∃ x ∈ l, r = f x := by
  intro l
  induction l with
  | nil => intro r h; exact absurd h (by simp [updateFirst])
  | cons x xs ih =>
      intro r h
      rw [updateFirst] at h
      by_cases hx : p x = true
      · rw [if_pos hx] at h
        rcases List.mem_cons.mp h with h1 | h1
        · exact Or.inr ⟨x, List.mem_cons_self _ _, h1⟩
        · exact Or.inl (List.mem_cons_of_mem _ h1)
      · rw [if_neg hx] at h
        rcases List.mem_cons.mp h with h1 | h1
        · exact Or.inl (h1 ▸ List.mem_cons_self _ _)
        · rcases ih h1 with h2 | ⟨y, hy, hr⟩
          · exact Or.inl (List.mem_cons_of_mem _ h2)
          · exact Or.inr ⟨y, List.mem_cons_of_mem _ hy, hr⟩

lemma countChave_zero_not_match {db : FiscalDB} {c : String} (h : db.countChave c = 0) :
    ∀ r ∈ db.records, chaveMatches c r = false := by
  rw [FiscalDB.countChave] at h
  intro r hr
  by_contra hne
  have hmem : r ∈ db.records.filter (chaveMatches c) :=
    List.mem_filter.mpr ⟨hr, by simpa using hne⟩
  rw [List.length_eq_zero] at h
  rw [h] at hmem
  exact absurd hmem (List.not_mem_nil r)

lemma countChave_zero_exists {db : FiscalDB} {c : String} (h : db.countChave c = 0) :
    db.existsChave c = false := by
  rw [FiscalDB.existsChave]
  rw [List.any_eq_false]
  intro r hr
  simp [countChave_zero_not_match h r hr]

lemma existsChave_append_right (l : List FiscalRec) (rec : FiscalRec) (c : String)
    (h : chaveMatches c rec = true) :
    (FiscalDB.mk (l ++ [rec])).existsChave c = true := by
  rw [FiscalDB.existsChave, List.any_eq_true]
  exact ⟨rec, by simp, h⟩

lemma countChave_append (l : List FiscalRec) (rec : FiscalRec) (c : String)
    (h : chaveMatches c rec = true) :
    (FiscalDB.mk (l ++ [rec])).countChave c = (FiscalDB.mk l).countChave c + 1 := by
  rw [FiscalDB.countChave, FiscalDB.countChave]
  simp [List.filter_append, h]

/-- Every unsuccessful `_handle_linked_purchase_invoice` result carries an
`action_required` entry. -/
lemma handle_fail_action (pi : Option PIStatus) (n : String) (env : PIEnv)
    (h : (handle_linked_purchase_invoice pi n env).1.success = false) :
    (handle_linked_purchase_invoice pi n env).1.action_required.isSome = true := by
  match pi with
  | none => rfl
  | some .cancelled => exact absurd h (by simp [handle_linked_purchase_invoice])
  | some .submitted =>
      rw [handle_linked_purchase_invoice] at h ⊢
      by_cases hc : env.cancel_ok = true
      · rw [if_pos hc] at h
        exact absurd h (by simp)
      · rw [if_neg hc]
        rfl
  | some .draft =>
      rw [handle_linked_purchase_invoice] at h ⊢
      by_cases hc : env.delete_ok = true
      · rw [if_pos hc] at h
        exact absurd h (by simp)
      · rw [if_neg hc]
        rfl

/-- The duplicate-merge branch of the fetch loop: a non-event document whose
(truthy) access key already exists is merged, not re-created. -/
lemma ingest_merge (company : String) (env : EventoEnv) (db : FiscalDB) (d : InboundDoc)
    (fresh c : String) (x : Option String)
    (hev : d.tipo_documento ≠ some "EVENTO") (hxml : d.xml = Except.ok x)
    (hchave : d.chave = some c) (hc : c ≠ "") (hex : db.existsChave c = true) :
    ingest_doc company env db d fresh =
      (⟨updateFirst (chaveMatches c) setOriginTrue db.records⟩, ⟨0, 1, 0, 0⟩) := by
  rw [ingest_doc, if_neg (by simp [hev]), hxml]
  dsimp only
  rw [hchave]
  rw [if_pos (by simp [truthyS, hc, hex])]
  rfl

/-! ## Claim theorems -/

/-- **C1.** For every input string, `validate_chave_acesso` returns `true` iff
the cleaned input is exactly 44 digits and the digit at position 43 equals the
check digit recomputed by weighted modulo-11 over digits 0–42 (weights cycling
2..9 from the rightmost of those digits leftward, check digit 0 when the
remainder is below 2, otherwise 11 minus the remainder); any wrong-length
input yields `false`.  (The function is total, so it never throws; after
cleaning, the digit-only guard of the source is vacuously satisfied.) -/
theorem validate_chave_acesso_iff_spec (s : String) :
    validate_chave_acesso s = true ↔
      (clean_chave s).length = 44 ∧
        ((clean_chave s).toList.map digitVal).getD 43 0 =
          spec_check_digit ((clean_chave s).toList.map digitVal) := by
  by_cases hlen : (clean_chave s).length = 44
  · simp only [validate_chave_acesso, hlen, clean_chave_all_digits, spec_check_digit,
      chaveTotal_eq_spec_total]
    norm_num
  · simp only [validate_chave_acesso]
    rw [if_pos hlen]
    simp [hlen]

/-- **C9.** `clean_cnpj` is idempotent, and for every input whose cleaned form
has exactly 14 digits, `format_cnpj (clean_cnpj x)` produces the canonical
mask `XX.XXX.XXX/XXXX-XX` over those 14 digits. -/
theorem cnpj_roundtrip_and_idem :
    (∀ x : String, clean_cnpj (clean_cnpj x) = clean_cnpj x) ∧
      (∀ x : String, (clean_cnpj x).length = 14 →
        format_cnpj (clean_cnpj x) = canonical_cnpj_mask (clean_cnpj x).toList) := by
  refine ⟨clean_cnpj_idem, fun x hx => ?_⟩
  rw [format_cnpj, clean_cnpj_idem, if_neg (by omega)]
  rfl

/-- **C7.** The currency parser auto-detects the numeric dialect per field:
a comma-bearing value is parsed with dots stripped as thousands separators and
the comma as decimal separator (`"16.800,00"` ↦ 16800.00); otherwise the value
is parsed as dot-decimal (`"16800.00"` ↦ 16800.00); empty string, `"0"`,
`None`, and — via the `Option.getD 0` fallback modelling the caught
`ValueError` — any unparseable value yield 0.0; the function is total, so it
never throws. -/
theorem parse_currency_spec :
    parse_currency (some "16.800,00") = 16800 ∧
      parse_currency (some "16800.00") = 16800 ∧
      parse_currency (some "0") = 0 ∧
      parse_currency (some "") = 0 ∧
      parse_currency none = 0 ∧
      (∀ s : String, s ≠ "" → ((pyStrip s).toList.contains ',') = true →
        parse_currency (some s) = (pyFloat (brazilianNormalize (pyStrip s))).getD 0) ∧
      (∀ s : String, s ≠ "" → ((pyStrip s).toList.contains ',') = false →
        parse_currency (some s) = (pyFloat (pyStrip s)).getD 0) := by
  refine ⟨?_, ?_, ?_, by rfl, rfl, ?_, ?_⟩
  · have h : pyFloat (brazilianNormalize (pyStrip "16.800,00")) =
        some (1 * ((16800 : ℚ) + (0 : ℚ) / (10 : ℚ) ^ (2 : ℕ))) := by rfl
    simp only [parse_currency]
    rw [if_neg (by decide), if_pos (by decide), h]
    norm_num
  · have h : pyFloat (pyStrip "16800.00") =
        some (1 * ((16800 : ℚ) + (0 : ℚ) / (10 : ℚ) ^ (2 : ℕ))) := by rfl
    simp only [parse_currency]
    rw [if_neg (by decide), if_neg (by decide), h]
    norm_num
  · have h : pyFloat (pyStrip "0") = some (1 * ((0 : ℕ) : ℚ)) := by rfl
    simp only [parse_currency]
    rw [if_neg (by decide), if_neg (by decide), h]
    norm_num
  · intro s hs hc
    simp only [parse_currency]
    rw [if_neg hs, if_pos hc]
  · intro s hs hc
    simp only [parse_currency]
    rw [if_neg hs, if_neg (by rw [hc]; exact Bool.false_ne_true)]

/-- **C3.** A non-event inbound document whose access key already exists is
merged, not re-created: the existing record's origin flag is set, the
document is counted as skipped, and the record list keeps its length.
Ingesting the same document twice into a database without its key leaves
exactly one record with that key, carrying `origin_sefaz = 1`, with one
creation and one skip counted. -/
theorem ingest_dedup_spec :
    (∀ (company : String) (env : EventoEnv) (db : FiscalDB) (d : InboundDoc)
        (fresh c : String) (x : Option String),
      d.tipo_documento ≠ some "EVENTO" → d.xml = Except.ok x →
      d.chave = some c → c ≠ "" → db.existsChave c = true →
      ingest_doc company env db d fresh =
          (⟨updateFirst (chaveMatches c) setOriginTrue db.records⟩, ⟨0, 1, 0, 0⟩) ∧
        (ingest_doc company env db d fresh).1.records.length = db.records.length) ∧
      (∀ (company : String) (env : EventoEnv) (db : FiscalDB) (d : InboundDoc)
          (f1 f2 c : String) (x : Option String),
        d.tipo_documento ≠ some "EVENTO" → d.xml = Except.ok x →
        d.chave = some c → c ≠ "" → d.parse_ok = true →
        (d.parsed_chave = some c ∨ d.parsed_chave = none) →
        db.countChave c = 0 →
        (truthyS d.nsu = false ∨ db.existsNSU (d.nsu.getD "") company = false) →
        (ingest_batch company env db [(d, f1), (d, f2)]).1.countChave c = 1 ∧
          (∀ r ∈ (ingest_batch company env db [(d, f1), (d, f2)]).1.records,
            chaveMatches c r = true → r.origin_sefaz = true) ∧
          (ingest_batch company env db [(d, f1), (d, f2)]).2.created = 1 ∧
          (ingest_batch company env db [(d, f1), (d, f2)]).2.skipped = 1) := by
  constructor
  · intro company env db d fresh c x hev hxml hchave hc hex
    refine ⟨ingest_merge company env db d fresh c x hev hxml hchave hc hex, ?_⟩
    rw [ingest_merge company env db d fresh c x hev hxml hchave hc hex]
    exact updateFirst_length _ _ _
  · intro company env db d f1 f2 c x hev hxml hchave hc hparse hkey hcount hnsu
    have hcreate : create_nota_fiscal d company f1 = Except.ok (mkIngestRec d company f1 c) := by
      rw [create_nota_fiscal, if_neg (by simp [hparse]), mkIngestRec]
      rcases hkey with hk | hk
      · rw [hk]
      · rw [hk, hchave]
        dsimp only
        rw [if_pos (by simp [truthyS, hc])]
    have hmatch : chaveMatches c (mkIngestRec d company f1 c) = true := by
      simp [chaveMatches, mkIngestRec]
    have hstep1 : ingest_doc company env db d f1 =
        (⟨db.records ++ [mkIngestRec d company f1 c]⟩, ⟨1, 0, 0, 0⟩) := by
      rw [ingest_doc, if_neg (by simp [hev]), hxml]
      dsimp only
      rw [hchave]
      rw [if_neg (by simp [truthyS, hc, countChave_zero_exists hcount])]
      rw [if_neg ?nsu]
      case nsu =>
        rcases hnsu with hn | hn <;> simp [hn]
      rw [hcreate]
    have hex1 : (FiscalDB.mk (db.records ++ [mkIngestRec d company f1 c])).existsChave c
        = true :=
      existsChave_append_right _ _ _ hmatch
    have hbatch : ingest_batch company env db [(d, f1), (d, f2)] =
        (⟨updateFirst (chaveMatches c) setOriginTrue
          (db.records ++ [mkIngestRec d company f1 c])⟩, ⟨1, 1, 0, 0⟩) := by
      simp only [ingest_batch]
      rw [hstep1]
      dsimp only
      rw [ingest_merge company env _ d f2 c x hev hxml hchave hc hex1]
      rfl
    rw [hbatch]
    have hpres : ∀ r : FiscalRec, chaveMatches c (setOriginTrue r) = chaveMatches c r :=
      fun _ => rfl
    refine ⟨?_, ?_, rfl, rfl⟩
    · show ((updateFirst (chaveMatches c) setOriginTrue _).filter (chaveMatches c)).length = 1
      rw [updateFirst_filter_length _ _ hpres]
      have hca := countChave_append db.records (mkIngestRec d company f1 c) c hmatch
      rw [FiscalDB.countChave] at hca
      rw [hca]
      rw [show (FiscalDB.mk db.records).countChave c = 0 from hcount]
    · intro r hr hrm
      rcases mem_updateFirst hr with hmem | ⟨y, _, hy⟩
      · rcases List.mem_append.mp hmem with hdb | hnew
        · exact absurd hrm (by simp [countChave_zero_not_match hcount r hdb])
        · rw [List.mem_singleton.mp hnew, mkIngestRec]
      · rw [hy]
        rfl

/-- **C6.** For every cancellation event whose access key matches a stored
record (and whose payload decodes, the decode being the caller-owned boundary
of §6), the record is marked `cancelada = 1`, `processing_status =
"Cancelled"`, `status_sefaz = "Cancelada"`, whatever the compensation
environment does — no record is added or removed, any compensation failure
is collected as a single issue carrying an `action_required` entry, and the
operator alert fires exactly when issues remain.  The compensation itself:
an already-cancelled linked invoice is a no-op success, a submitted one is
cancel-attempted with failure reported (never raised) as
`"Manual cancellation required"`, a draft one is deleted with failure
reported likewise. -/
theorem evento_cancellation_spec :
    (∀ (db : FiscalDB) (c : String) (tipo : Option String) (xml_content : Option String)
        (env : EventoEnv) (nf : FiscalRec),
      c ≠ "" → db.getByChave c = some nf → isCancellationEvento tipo = true →
      ∃ (db2 : FiscalDB) (issues : List PIResult),
        process_evento db (some c) tipo (Except.ok xml_content) env =
            Except.ok (db2, issues, !issues.isEmpty) ∧
          (∃ r, db2.getByChave c = some r ∧ r.cancelada = true ∧
            r.processing_status = "Cancelled" ∧ r.status_sefaz = some "Cancelada") ∧
          db2.records.length = db.records.length ∧
          (issues = [] ∨ ∃ res, issues = [res] ∧ res.success = false ∧
            res.action_required.isSome = true)) ∧
      (∀ (n : String) (env : PIEnv),
        (handle_linked_purchase_invoice (some .cancelled) n env).1.success = true ∧
          (handle_linked_purchase_invoice (some .cancelled) n env).2 = some .cancelled) ∧
      (∀ (n : String) (env : PIEnv), env.cancel_ok = false →
        (handle_linked_purchase_invoice (some .submitted) n env).1.success = false ∧
          (handle_linked_purchase_invoice (some .submitted) n env).1.action_required =
            some "Manual cancellation required" ∧
          (handle_linked_purchase_invoice (some .submitted) n env).2 = some .submitted) ∧
      (∀ (n : String) (env : PIEnv), env.cancel_ok = true →
        (handle_linked_purchase_invoice (some .submitted) n env).1.success = true ∧
          (handle_linked_purchase_invoice (some .submitted) n env).2 = some .cancelled) ∧
      (∀ (n : String) (env : PIEnv), env.delete_ok = true →
        (handle_linked_purchase_invoice (some .draft) n env).1.success = true ∧
          (handle_linked_purchase_invoice (some .draft) n env).2 = none) ∧
      (∀ (n : String) (env : PIEnv), env.delete_ok = false →
        (handle_linked_purchase_invoice (some .draft) n env).1.success = false ∧
          (handle_linked_purchase_invoice (some .draft) n env).1.action_required =
            some "Manual deletion required") := by
  refine ⟨?_, ?_, ?_, ?_, ?_, ?_⟩
  · intro db c tipo xml_content env nf hc hfound hcan
    rw [FiscalDB.getByChave] at hfound
    rw [process_evento, if_neg (not_not_intro (by simp [truthyS, hc]))]
    rw [show (some c).getD "" = c from rfl]
    dsimp only
    rw [show FiscalDB.getByChave db c = some nf from hfound]
    dsimp only
    rw [if_pos hcan]
    refine ⟨_, _, rfl, ?_, ?_, ?_⟩
    · have hm1 : (markCancelled db c).getByChave c = some (cancelUpdate nf) := by
        rw [markCancelled, FiscalDB.getByChave]
        show (updateFirst (chaveMatches c) cancelUpdate db.records).find? (chaveMatches c) = _
        rw [find?_updateFirst (chaveMatches c) cancelUpdate (fun _ => rfl), hfound]
        rfl
      by_cases hcase : (truthyS xml_content && env.save_event_ok) = true
      · rw [if_pos hcase]
        have hm2 : (appendCancelEvento (markCancelled db c) c).getByChave c =
            some (eventoUpdate (cancelUpdate nf)) := by
          rw [appendCancelEvento, FiscalDB.getByChave]
          show (updateFirst (chaveMatches c) eventoUpdate (markCancelled db c).records).find?
            (chaveMatches c) = _
          rw [find?_updateFirst (chaveMatches c) eventoUpdate (fun _ => rfl)]
          rw [show (markCancelled db c).records.find? (chaveMatches c) =
            (markCancelled db c).getByChave c from rfl, hm1]
          rfl
        exact ⟨_, hm2, rfl, rfl, rfl⟩
      · rw [if_neg hcase]
        exact ⟨_, hm1, rfl, rfl, rfl⟩
    · by_cases hcase : (truthyS xml_content && env.save_event_ok) = true
      · rw [if_pos hcase, appendCancelEvento]
        show (updateFirst _ _ (markCancelled db c).records).length = _
        rw [updateFirst_length, markCancelled]
        exact updateFirst_length _ _ _
      · rw [if_neg hcase, markCancelled]
        exact updateFirst_length _ _ _
    · by_cases hpi : truthyS nf.purchase_invoice = true
      · rw [if_pos hpi]
        by_cases hsucc : (handle_linked_purchase_invoice env.pi_state
            (nf.purchase_invoice.getD "") env.pi_env).1.success = true
        · rw [if_pos hsucc]
          exact Or.inl rfl
        · rw [if_neg hsucc]
          refine Or.inr ⟨_, rfl, by simpa using hsucc, ?_⟩
          exact handle_fail_action _ _ _ (by simpa using hsucc)
      · rw [if_neg hpi]
        exact Or.inl rfl
  · intro n env
    exact ⟨rfl, rfl⟩
  · intro n env h
    rw [handle_linked_purchase_invoice]
    rw [if_neg (by simp [h])]
    exact ⟨rfl, rfl, rfl⟩
  · intro n env h
    rw [handle_linked_purchase_invoice, if_pos h]
    exact ⟨rfl, rfl⟩
  · intro n env h
    rw [handle_linked_purchase_invoice, if_pos h]
    exact ⟨rfl, rfl⟩
  · intro n env h
    rw [handle_linked_purchase_invoice, if_neg (by simp [h])]
    exact ⟨rfl, rfl⟩

/-- Witness for C6 at the spec's scenario (submitted linked invoice whose
cancel fails). -/
theorem evento_cancellation_witness :
    ∃ (db2 : FiscalDB) (issues : List PIResult),
      process_evento sampleCancelDB (some "K9") (some "Cancelamento")
          (Except.ok (some "<evento>")) sampleCancelEnv =
          Except.ok (db2, issues, !issues.isEmpty) ∧
        (∃ r, db2.getByChave "K9" = some r ∧ r.cancelada = true ∧
          r.processing_status = "Cancelled" ∧ r.status_sefaz = some "Cancelada") ∧
        db2.records.length = sampleCancelDB.records.length ∧
        (issues = [] ∨ ∃ res, issues = [res] ∧ res.success = false ∧
          res.action_required.isSome = true) :=
  evento_cancellation_spec.1 sampleCancelDB "K9" (some "Cancelamento") (some "<evento>")
    sampleCancelEnv _ (by decide) rfl (by decide)

/-- A concrete one-record database holding access key `K1`. -/
def sampleIngestDB : FiscalDB :=
  ⟨[{ name := "NF-1"
      chave_de_acesso := some "K1"
      nsu := some "7"
      company := "COMP"
      origin_sefaz := false
      cancelada := false
      processing_status := "Completed"
      status_sefaz := none
      purchase_invoice := none
      eventos := [] }]⟩

/-- A concrete inbound duplicate of `K1`. -/
def sampleInbound : InboundDoc :=
  { nsu := some "7"
    chave := some "K1"
    tipo_documento := some "NFSE"
    tipo_evento := none
    xml := Except.ok (some "<xml>")
    parse_ok := true
    parsed_chave := none }

def sampleEventoEnv : EventoEnv :=
  { pi_state := none
    pi_env := ⟨true, "", true, ""⟩
    save_event_ok := true }

/-- Witness for C3's merge clause at a concrete duplicate inbound document. -/
theorem ingest_dedup_witness :
    ingest_doc "COMP" sampleEventoEnv sampleIngestDB sampleInbound "NF-2" =
      (⟨updateFirst (chaveMatches "K1") setOriginTrue sampleIngestDB.records⟩,
        ⟨0, 1, 0, 0⟩) :=
  (ingest_dedup_spec.1 "COMP" sampleEventoEnv sampleIngestDB sampleInbound "NF-2" "K1"
    (some "<xml>") (by simp [sampleInbound]) rfl rfl (by decide) (by decide)).1

/-- **C2.** A record whose cancellation flag is set, or whose
`processing_status` is `"Cancelled"`, makes `process` raise the hard
`frappe.throw` failure (the only `Except.error` this embedding can produce)
before any stage executes: the result is the same for every stage
environment, no stage status is saved, and no success value is returned. -/
theorem process_rejects_cancelled (settings : NFSettings) (env : StageEnv) (nf : NFDoc)
    (h : nf.cancelada = true ∨ nf.processing_status = "Cancelled") :
    NFProcessor.process settings env nf = Except.error cancelledMsg := by
  rw [NFProcessor.process, if_pos]
  rcases h with h | h
  · simp [h]
  · simp [h]

/-- Witness for C2 at a concrete cancelled record. -/
theorem process_rejects_cancelled_witness :
    NFProcessor.process autoInvoiceSettings emptyItemsEnv
        { freshNFDoc with cancelada := true } =
      Except.error cancelledMsg :=
  process_rejects_cancelled autoInvoiceSettings emptyItemsEnv
    { freshNFDoc with cancelada := true } (Or.inl rfl)

/-- **C10.** `process_nf_items` on an empty item list returns
`(0, 0, "All Created")` (the zero-failures branch is taken), and a document
whose item stage reports that aggregate satisfies the
`item_creation_status == "All Created"` gate of the automatic
invoice-creation stage: with auto-invoicing configured and a supplier linked,
the pipeline enters `Invoice Creation` and completes. -/
theorem empty_items_all_created :
    process_nf_items [] = (0, 0, "All Created") ∧
      ∃ p : NFDoc × List String,
        NFProcessor.process autoInvoiceSettings emptyItemsEnv freshNFDoc = Except.ok p ∧
          "Invoice Creation" ∈ p.2 ∧ p.1.processing_status = "Completed" ∧
          p.1.item_creation_status = some "All Created" := by
  refine ⟨rfl,
    ⟨(⟨"NF-0001", false, "Completed", none, some "SUP-0001", some "Linked",
        some "All Created", none, none⟩,
      ["Supplier Processing", "Item Processing", "Invoice Creation", "Completed"]),
      rfl, ?_, rfl, rfl⟩⟩
  simp

/-- **C5.** The match score is the capped sum of the four claimed sub-scores
(value proximity, line-count proximity, item-code overlap, date proximity);
the best-scoring candidate is linked with status `Linked` at score ≥ 50,
`Partial Match` at 30–49, and no link with `Not Found` below 30; and the
spec's concrete scenario (2% value difference at 5% tolerance, 0 of 2 item
codes overlapping, same-day date, equal line counts of 2) totals 60 and
yields `Linked`. -/
theorem po_matcher_spec :
    (∀ (nf : NFDocPO) (po : POData) (tol v : ℚ),
        nf.valor_total = some v → 0 < v → 0 < po.grand_total →
        calculate_match_score nf po tol =
          min (spec_value_subscore (|v - po.grand_total| / po.grand_total) tol +
            spec_line_count_subscore nf.items.length po.items.length +
            spec_item_overlap_subscore nf.items po.items +
            spec_date_subscore ((nf.data_emissao - po.transaction_date).natAbs)) 100) ∧
      (∀ (settings : POSettings) (nf : NFDocPO) (candidates : List POData),
        truthyS nf.supplier = true → candidates.isEmpty = false →
        ((auto_link_po settings nf candidates).2 =
            (if 50 ≤ maxScore nf (pyOrQ settings.po_match_tolerance_percent 5 / 100) candidates
              then "Linked"
              else if 30 ≤ maxScore nf (pyOrQ settings.po_match_tolerance_percent 5 / 100) candidates
                then "Partial Match" else "Not Found") ∧
          (∀ name, (auto_link_po settings nf candidates).1 = some name →
            ∃ po ∈ candidates, po.name = name ∧
              calculate_match_score nf po (pyOrQ settings.po_match_tolerance_percent 5 / 100) =
                maxScore nf (pyOrQ settings.po_match_tolerance_percent 5 / 100) candidates) ∧
          (maxScore nf (pyOrQ settings.po_match_tolerance_percent 5 / 100) candidates < 30 →
            (auto_link_po settings nf candidates).1 = none))) ∧
      (auto_link_po ⟨some 5⟩ nfScenario [poScenario] = (some "PO-0001", "Linked") ∧
        calculate_match_score nfScenario poScenario (5 / 100) = 60) := by
  refine ⟨match_score_decomp, ?_, scenario_link, scenario_score⟩
  intro settings nf candidates hsup hne
  have hM := bestCandidate_snd nf (pyOrQ settings.po_match_tolerance_percent 5 / 100) candidates
  refine ⟨?_, ?_, ?_⟩
  · rw [auto_link_po, if_neg (not_not_intro hsup), if_neg (by simp [hne])]
    dsimp only
    rw [hM]
    split_ifs <;> rfl
  · intro name hname
    rw [auto_link_po, if_neg (not_not_intro hsup), if_neg (by simp [hne])] at hname
    dsimp only at hname
    by_cases h50 : 50 ≤ (bestCandidate nf (pyOrQ settings.po_match_tolerance_percent 5 / 100)
        candidates).2
    · rw [if_pos h50] at hname
      obtain ⟨po, hpo1, hpo2⟩ := Option.map_eq_some'.mp hname
      obtain ⟨hsc, hmem⟩ := bestCandidate_fst nf _ candidates po hpo1
      exact ⟨po, hmem, hpo2, hsc.trans hM⟩
    · rw [if_neg h50] at hname
      by_cases h30 : 30 ≤ (bestCandidate nf (pyOrQ settings.po_match_tolerance_percent 5 / 100)
          candidates).2
      · rw [if_pos h30] at hname
        obtain ⟨po, hpo1, hpo2⟩ := Option.map_eq_some'.mp hname
        obtain ⟨hsc, hmem⟩ := bestCandidate_fst nf _ candidates po hpo1
        exact ⟨po, hmem, hpo2, hsc.trans hM⟩
      · rw [if_neg h30] at hname
        exact absurd hname (by simp)
  · intro hlt
    rw [auto_link_po, if_neg (not_not_intro hsup), if_neg (by simp [hne])]
    dsimp only
    rw [if_neg (by omega), if_neg (by omega)]

/-- Witness for C5 at the concrete scenario inputs. -/
theorem po_matcher_witness :
    calculate_match_score nfScenario poScenario (5 / 100) =
      min (spec_value_subscore (|(1000 : ℚ) - poScenario.grand_total| / poScenario.grand_total)
          (5 / 100) +
        spec_line_count_subscore nfScenario.items.length poScenario.items.length +
        spec_item_overlap_subscore nfScenario.items poScenario.items +
        spec_date_subscore ((nfScenario.data_emissao - poScenario.transaction_date).natAbs)) 100 :=
  po_matcher_spec.1 nfScenario poScenario (5 / 100) 1000 rfl (by norm_num)
    (by show (0 : ℚ) < 1020; norm_num)

/-- **C4.** `parse` yields `None` and never propagates an exception for every
empty input, every syntactically malformed input (`ET.fromstring` raising
`ParseError`, modelled by the `none` tree), and every well-formed input whose
document type cannot be detected.  Totality of `parse` is the never-throws
part. -/
theorem parse_none_on_bad_input :
    (∀ et : Option XmlTree, parse "" et = none) ∧
      (∀ s : String, parse s none = none) ∧
      (∀ (s : String) (root : XmlTree), detect_document_type s root.tag = none →
        parse s (some root) = none) := by
  refine ⟨fun et => by simp [parse], fun s => ?_, fun s root h => ?_⟩
  · by_cases hs : s = "" <;> simp [parse, hs]
  · by_cases hs : s = ""
    · simp [parse, hs]
    · simp [parse, hs, h]

/-- Witness for C4's detection-failure clause at a concrete unrecognisable
root element. -/
theorem parse_none_witness :
    parse "x" (some (XmlTree.mk "foo" [] none .nil)) = none :=
  parse_none_on_bad_input.2.2 "x" (XmlTree.mk "foo" [] none .nil) (by decide)

/-- **C8.** For every successfully parsed document: an NFS-e result (either
dialect) carries exactly one synthetic line item, with quantity 1; an NF-e
result carries exactly one line item per `det` node of the selected `infNFe`
element, in document order (the item list is the in-order map of the
extraction function over those nodes). -/
theorem parsed_items_invariant (s : String) (root : XmlTree) (d : DocData)
    (h : parse s (some root) = some d) :
    (d.document_type = "NFS-e" →
      ∃ it : ItemData, d.items = some [it] ∧ it.quantidade = some 1) ∧
      (∀ nsUri : String, detect_document_type s root.tag = some ("NF-e", nsUri) →
        d.items = some
          ((nfe_det_elements (nfe_inf_element root (some nsUri)) (some nsUri)).map
            (nfe_item_of_det (some nsUri)))) := by
  by_cases hs : s = ""
  · rw [parse, if_pos hs] at h
    exact absurd h (by simp)
  · rw [parse, if_neg hs] at h
    cases hdet : detect_document_type s root.tag with
    | none => rw [hdet] at h; exact absurd h (by simp)
    | some p =>
      obtain ⟨dt, ns⟩ := p
      rw [hdet] at h
      dsimp only at h
      by_cases h1 : dt = "NF-e"
      · rw [if_pos h1] at h
        obtain rfl : parse_nfe root (some ns) = d := Option.some.inj h
        refine ⟨fun hdoc => absurd hdoc (by simp [parse_nfe]), fun nsU hdet2 => ?_⟩
        obtain rfl : ns = nsU := (Prod.mk.injEq _ _ _ _ ▸ Option.some.inj hdet2).2
        rfl
      · rw [if_neg h1] at h
        by_cases h2 : dt = "CT-e"
        · rw [if_pos h2] at h
          obtain rfl : parse_cte = d := Option.some.inj h
          refine ⟨fun hdoc => absurd hdoc (by simp [parse_cte]), fun nsU hdet2 => ?_⟩
          have h' := (Prod.mk.injEq _ _ _ _ ▸ Option.some.inj hdet2).1
          rw [h2] at h'
          exact absurd h' (by simp)
        · rw [if_neg h2] at h
          by_cases h3 : dt = "NFS-e"
          · rw [if_pos h3] at h
            obtain rfl : parse_nfse root (some ns) = d := Option.some.inj h
            refine ⟨fun _ => ?_, fun nsU hdet2 => ?_⟩
            · rw [parse_nfse]
              split
              · exact ⟨_, rfl, rfl⟩
              · exact ⟨_, rfl, rfl⟩
            · have h' := (Prod.mk.injEq _ _ _ _ ▸ Option.some.inj hdet2).1
              rw [h3] at h'
              exact absurd h' (by simp)
          · rw [if_neg h3] at h
            exact absurd h (by simp)

/-- Witness for C8 at the concrete NFS-e sample. -/
theorem parsed_items_witness :
    ∃ it : ItemData, sampleNfseDoc.items = some [it] ∧ it.quantidade = some 1 :=
  (parsed_items_invariant "x" sampleNfseTree sampleNfseDoc rfl).1 rfl

/-- Witness for C7's general dialect clauses at concrete inputs. -/
theorem parse_currency_witness :
    parse_currency (some "1,5") = (pyFloat (brazilianNormalize (pyStrip "1,5"))).getD 0 ∧
      parse_currency (some "2.5") = (pyFloat (pyStrip "2.5")).getD 0 :=
  ⟨parse_currency_spec.2.2.2.2.2.1 "1,5" (by decide) (by decide),
   parse_currency_spec.2.2.2.2.2.2 "2.5" (by decide) (by decide)⟩

/-- Witness for C9 at a concrete formatted CNPJ. -/
theorem cnpj_roundtrip_witness :
    format_cnpj (clean_cnpj "12.345.678/0001-95") =
      canonical_cnpj_mask (clean_cnpj "12.345.678/0001-95").toList :=
  cnpj_roundtrip_and_idem.2 "12.345.678/0001-95" (by decide)

end BrazilNF
